import Mathlib

/-! Azure Kinect input thread of badslam (`input_azurekinect.cc`).

A shallow embedding of `K4AInputThread`: the start sequence (`Start`), the
producer thread (`ThreadMain`) and the consumer call (`GetNextFrame`), with the
two frame queues they share.

Conventions of the embedding:
* the object's members are the fields of `K4AInputThread`; the function-local
  `static bool first` of `GetNextFrame` is the field `first`;
* calls into the Azure Kinect SDK that act on the device are recorded, in
  order, in the field `trace`;
* what the device and the other thread answer (capture results, the value of
  `exit_` and of `clock()` when they are read) is supplied as a list of `Tick`;
* pixel buffers are uninterpreted codes (`Nat`); OpenCV matrices carry their
  shape, element type and a buffer code; `double` and `float` values are
  idealised as rationals (no theorem below depends on rounding);
* the mutex makes each queue operation atomic, so the producer's pushes are
  interleaved with the consumer only between calls and inside
  `new_frame_condition_.wait(lock)`.
-/

namespace K4A

/-! ## Data model -/

/-- Pixel types of the two frame histories: `Image<u16>` and `Image<Vec3u8>`. -/
inductive Pixel
  | u16
  | Vec3u8
  deriving DecidableEq, Repr

/-- Frame image `Image<T>(width, height)` filled by `SetTo(data, stride)`. -/
structure Image (p : Pixel) where
  width : Nat
  height : Nat
  data : Nat
  deriving DecidableEq, Repr

/-- One processed frame: the depth image and the color image pushed together. -/
abbrev FramePair := Image Pixel.u16 × Image Pixel.Vec3u8

/-- Element types of the OpenCV matrices used by the source (`CV_16UC1` is `CV_16U`). -/
inductive MatType
  | CV_8UC1
  | CV_8UC3
  | CV_8UC4
  | CV_16U
  | CV_16SC2
  | CV_64F
  deriving DecidableEq, Repr

/-- Shape, element type and buffer code of a `cv::Mat`. -/
structure Mat where
  rows : Nat
  cols : Nat
  type : MatType
  data : Nat
  deriving DecidableEq, Repr

/-- Default-constructed `cv::Mat()`. -/
def Mat.default : Mat := { rows := 0, cols := 0, type := MatType.CV_8UC1, data := 0 }

/-- The test `cv::Mat::empty()` (no elements). -/
def Mat.empty (m : Mat) : Bool := m.rows == 0 || m.cols == 0

/-- The call `cv::Mat::zeros(rows, cols, type)`. -/
def Mat.zeros (rows cols : Nat) (type : MatType) : Mat :=
  { rows := rows, cols := cols, type := type, data := 0 }

/-- A 3x3 matrix of doubles (`camera_matrix`, `new_camera_matrix`). -/
structure Mat33 where
  a00 : Rat
  a01 : Rat
  a02 : Rat
  a10 : Rat
  a11 : Rat
  a12 : Rat
  a20 : Rat
  a21 : Rat
  a22 : Rat
  deriving DecidableEq, Repr

def Mat33.zero : Mat33 :=
  { a00 := 0, a01 := 0, a02 := 0, a10 := 0, a11 := 0, a12 := 0, a20 := 0, a21 := 0, a22 := 0 }

/-- SDK result code `k4a_result_t`. -/
inductive k4a_result_t
  | K4A_RESULT_SUCCEEDED
  | K4A_RESULT_FAILED
  deriving DecidableEq, Repr

/-- SDK result code `k4a_wait_result_t`. -/
inductive k4a_wait_result_t
  | K4A_WAIT_RESULT_SUCCEEDED
  | K4A_WAIT_RESULT_FAILED
  | K4A_WAIT_RESULT_TIMEOUT
  deriving DecidableEq, Repr

/-- SDK enumeration `k4a_fps_t`. -/
inductive k4a_fps_t
  | K4A_FRAMES_PER_SECOND_5
  | K4A_FRAMES_PER_SECOND_15
  | K4A_FRAMES_PER_SECOND_30
  deriving DecidableEq, Repr

/-- The color encodings of `k4a_image_format_t` that `ThreadMain` distinguishes. -/
inductive k4a_image_format_t
  | K4A_IMAGE_FORMAT_COLOR_MJPG
  | K4A_IMAGE_FORMAT_COLOR_NV12
  | K4A_IMAGE_FORMAT_COLOR_YUY2
  | K4A_IMAGE_FORMAT_COLOR_BGRA32
  deriving DecidableEq, Repr

inductive k4a_color_resolution_t
  | K4A_COLOR_RESOLUTION_OFF
  | K4A_COLOR_RESOLUTION_720P
  deriving DecidableEq, Repr

inductive k4a_depth_mode_t
  | K4A_DEPTH_MODE_OFF
  | K4A_DEPTH_MODE_WFOV_2X2BINNED
  deriving DecidableEq, Repr

/-- The fields of `k4a_device_configuration_t` that `Start` writes. -/
structure k4a_device_configuration_t where
  camera_fps : k4a_fps_t
  color_format : k4a_image_format_t
  color_resolution : k4a_color_resolution_t
  depth_mode : k4a_depth_mode_t
  synchronized_images_only : Bool
  deriving DecidableEq, Repr

/-- The intrinsic parameters read by `init_undistortion_map`. -/
structure Intrinsics where
  cx : Rat
  cy : Rat
  fx : Rat
  fy : Rat
  k1 : Rat
  k2 : Rat
  k3 : Rat
  k4 : Rat
  k5 : Rat
  k6 : Rat
  p1 : Rat
  p2 : Rat
  deriving DecidableEq, Repr

/-- The part of `k4a_calibration_camera_t` the source reads. -/
structure k4a_calibration_camera_t where
  resolution_width : Nat
  resolution_height : Nat
  intrinsics : Intrinsics
  deriving DecidableEq, Repr

/-- The part of `k4a_calibration_t` the source reads outside of printing. -/
structure k4a_calibration_t where
  color_camera_calibration : k4a_calibration_camera_t
  deriving DecidableEq, Repr

/-- An image handle `k4a_image_t` that is not `NULL`. -/
structure k4a_image where
  handle : Nat
  width_pixels : Nat
  height_pixels : Nat
  buffer : Nat
  deriving DecidableEq, Repr

/-- A capture delivered by `k4a_device_get_capture`; an absent image is the
`NULL` returned by `k4a_capture_get_depth_image` / `k4a_capture_get_color_image`. -/
structure k4a_capture where
  handle : Nat
  depth_image : Option k4a_image
  color_image : Option k4a_image
  deriving DecidableEq, Repr

/-- The camera model `PinholeCamera4f(width, height, parameters)`. -/
structure PinholeCamera4f where
  width : Nat
  height : Nat
  parameters : List Rat
  deriving DecidableEq, Repr

/-- SDK calls acting on the device, and the condition-variable signal. -/
inductive Call
  | k4a_device_open
  | k4a_device_start_cameras
  | k4a_device_get_calibration
  | k4a_device_set_color_control
  | k4a_device_get_capture (timeout_in_ms : Nat)
  | k4a_capture_release (capture : Nat)
  | k4a_image_release (image : Nat)
  | k4a_device_close
  | notify_all
  deriving DecidableEq, Repr

/-- The members of `K4AInputThread`, the `RGBDVideo` it feeds, the static
`first` of `GetNextFrame`, and the trace of device calls. -/
structure K4AInputThread where
  exit_ : Bool
  thread_ : Bool
  config : k4a_device_configuration_t
  calibration : k4a_calibration_t
  width : Nat
  height : Nat
  factor : Nat
  camera_matrix : Mat33
  new_camera_matrix : Mat33
  map1 : Mat
  map2 : Mat
  cv_undistorted_color : Mat
  cv_undistorted_depth : Mat
  cv_depth_downscaled : Mat
  cv_color_downscaled : Mat
  cv_undistorted_color_noalpha : Mat
  transformed_depth_image : Option k4a_image
  uncompressed_color_image : Option k4a_image
  depth_image_queue : List (Image Pixel.u16)
  color_image_queue : List (Image Pixel.Vec3u8)
  first : Bool
  color_camera : Option PinholeCamera4f
  depth_camera : Option PinholeCamera4f
  depth_frames : List (Image Pixel.u16)
  color_frames : List (Image Pixel.Vec3u8)
  trace : List Call
  deriving DecidableEq, Repr

/-- Record one device call. -/
def K4AInputThread.call (s : K4AInputThread) (c : Call) : K4AInputThread :=
  { s with trace := s.trace ++ [c] }

/-! ## The frame queue -/

/-- The push block of `ThreadMain` (under `queue_mutex`):
`depth_image_queue.push_back(depth_image); color_image_queue.push_back(color_image)`. -/
def Push (s : K4AInputThread) (depth_image : Image Pixel.u16)
    (color_image : Image Pixel.Vec3u8) : K4AInputThread :=
  { s with
    depth_image_queue := s.depth_image_queue ++ [depth_image]
    color_image_queue := s.color_image_queue ++ [color_image] }

/-- Several pushes of the producer, one after the other. -/
def PushAll (s : K4AInputThread) (pairs : List FramePair) : K4AInputThread :=
  pairs.foldl (fun t p => Push t p.1 p.2) s

/-- The loop `while (depth_image_queue.empty()) new_frame_condition_.wait(lock);`.
Each element of the list is what the producer pushed while the consumer was
suspended in one `wait` (an empty batch is a spurious wake-up). When the list
is used up and the depth queue is still empty the consumer is still waiting. -/
def wait_loop (s : K4AInputThread) : List (List FramePair) → K4AInputThread
  | [] => s
  | batch :: more =>
    if s.depth_image_queue.isEmpty then wait_loop (PushAll s batch) more else s

/-- How a call of `GetNextFrame` stands. -/
inductive Pulled
  | returned (s : K4AInputThread)
  | blocked (s : K4AInputThread)
  | undefined_front (s : K4AInputThread)
  deriving DecidableEq, Repr

/-- The state carried by an outcome. -/
def Pulled.state : Pulled → K4AInputThread
  | Pulled.returned s => s
  | Pulled.blocked s => s
  | Pulled.undefined_front s => s

/-- The consumer call `GetNextFrame`. `undefined_front` is
`color_image_queue.front()` applied to an empty vector. -/
def GetNextFrame (s : K4AInputThread) (wakeups : List (List FramePair)) : Pulled :=
  let s1 :=
    if s.first then
      { s with depth_image_queue := [], color_image_queue := [], first := false }
    else s
  let s2 := wait_loop s1 wakeups
  match s2.depth_image_queue with
  | [] => Pulled.blocked s2
  | depth_image :: depth_rest =>
    match s2.color_image_queue with
    | [] => Pulled.undefined_front { s2 with depth_image_queue := depth_rest }
    | color_image :: color_rest =>
      Pulled.returned
        { s2 with
          depth_image_queue := depth_rest
          color_image_queue := color_rest
          depth_frames := s2.depth_frames ++ [depth_image]
          color_frames := s2.color_frames ++ [color_image] }

/-- Calling `GetNextFrame` `n` times in a row while the producer pushes nothing;
a call that does not return ends the sequence. -/
def PullN : Nat → K4AInputThread → Pulled
  | 0, s => Pulled.returned s
  | n + 1, s =>
    match GetNextFrame s [] with
    | Pulled.returned t => PullN n t
    | other => other

/-! ## External collaborators -/

/-- The pure functions of the image backend and of the SDK that the source
calls; only their results on buffers are left open. `imdecode` answers `none`
when the decoded matrix has `data == NULL`;
`k4a_transformation_depth_image_to_color_camera` (given the depth image and the
current `transformed_depth_image` handle) answers `none` when its result is not
`K4A_RESULT_SUCCEEDED`; `k4a_image_create_from_buffer` answers the handle it
stores, `none` when it stores nothing. -/
structure Backend where
  imdecode : Nat → Option Mat
  k4a_image_create_from_buffer : Mat → Option k4a_image
  k4a_transformation_depth_image_to_color_camera :
    k4a_image → Option k4a_image → Option k4a_image
  resize : Nat → Nat → Nat → Nat
  scale : Nat → Nat
  remap : Nat → Nat → Nat → Nat
  cvtColor : Nat → Nat
  getOptimalNewCameraMatrix : Mat33 → List Rat → Nat → Nat → Mat33
  initUndistortRectifyMap : Mat33 → List Rat → Mat33 → Nat → Nat → Nat × Nat

/-- OpenCV `cv::resize(src, dst, dsize, 0, 0, interpolation)`: `dst` gets the
size `dsize` and the type of `src`; an empty `src`, or an empty `dsize` with
zero scale factors, raises `cv::Exception` (`none`). -/
def cv_resize (B : Backend) (src : Mat) (dsize_rows dsize_cols : Nat) : Option Mat :=
  if src.empty || dsize_rows == 0 || dsize_cols == 0 then none
  else some
    { rows := dsize_rows, cols := dsize_cols, type := src.type,
      data := B.resize src.data dsize_rows dsize_cols }

/-- OpenCV `cv::remap(src, dst, map1, map2, ...)`: `dst` has the size of `map1`
and the type of `src`; an empty `map1` raises `cv::Exception` (`none`). -/
def cv_remap (B : Backend) (src map1 map2 : Mat) : Option Mat :=
  if map1.empty then none
  else some
    { rows := map1.rows, cols := map1.cols, type := src.type,
      data := B.remap src.data map1.data map2.data }

/-- SDK `k4a_image_get_height_pixels` (0 for a `NULL` handle). -/
def k4a_image_get_height_pixels : Option k4a_image → Nat
  | some i => i.height_pixels
  | none => 0

/-- SDK `k4a_image_get_width_pixels` (0 for a `NULL` handle). -/
def k4a_image_get_width_pixels : Option k4a_image → Nat
  | some i => i.width_pixels
  | none => 0

/-- SDK `k4a_image_get_buffer`, as a buffer code. -/
def k4a_image_get_buffer : Option k4a_image → Nat
  | some i => i.buffer
  | none => 0

/-! ## Start sequence -/

/-- The function `k4a_convert_fps_to_uint`. -/
def k4a_convert_fps_to_uint : k4a_fps_t → Nat
  | k4a_fps_t.K4A_FRAMES_PER_SECOND_5 => 5
  | k4a_fps_t.K4A_FRAMES_PER_SECOND_15 => 15
  | k4a_fps_t.K4A_FRAMES_PER_SECOND_30 => 30

/-- The function `init_undistortion_map`. It returns `void` and tests nothing.
The divisions by `factor` are those of the source for `factor ≥ 1`; with
`factor = 0` the source divides by zero, and nothing is stated about that case. -/
def init_undistortion_map (B : Backend) (s : K4AInputThread) : K4AInputThread :=
  let intrinsics := s.calibration.color_camera_calibration.intrinsics
  let width := s.calibration.color_camera_calibration.resolution_width
  let height := s.calibration.color_camera_calibration.resolution_height
  let camera_matrix : Mat33 :=
    { a00 := intrinsics.fx / (s.factor : Rat), a01 := 0,
      a02 := intrinsics.cx / (s.factor : Rat),
      a10 := 0, a11 := intrinsics.fy / (s.factor : Rat),
      a12 := intrinsics.cy / (s.factor : Rat),
      a20 := 0, a21 := 0, a22 := 1 }
  let dist_coeffs : List Rat :=
    [intrinsics.k1, intrinsics.k2, intrinsics.p1, intrinsics.p2,
     intrinsics.k3, intrinsics.k4, intrinsics.k5, intrinsics.k6]
  let cv_depth_downscaled := Mat.zeros (height / s.factor) (width / s.factor) MatType.CV_16U
  let new_camera_matrix :=
    B.getOptimalNewCameraMatrix camera_matrix dist_coeffs
      cv_depth_downscaled.rows cv_depth_downscaled.cols
  let maps :=
    B.initUndistortRectifyMap camera_matrix dist_coeffs new_camera_matrix
      (height / s.factor) (width / s.factor)
  { s with
    width := width
    height := height
    camera_matrix := camera_matrix
    new_camera_matrix := new_camera_matrix
    map1 :=
      { rows := height / s.factor, cols := width / s.factor,
        type := MatType.CV_16SC2, data := maps.1 }
    map2 :=
      { rows := height / s.factor, cols := width / s.factor,
        type := MatType.CV_16U, data := maps.2 } }

/-- The function `init_memory`; `created` is the handle stored by
`k4a_image_create` (`none` when it fails, which is only logged). The divisions
by `factor` are those of the source for `factor ≥ 1`; with `factor = 0` the
source divides by zero, and nothing is stated about that case. -/
def init_memory (created : Option k4a_image) (s : K4AInputThread) : K4AInputThread :=
  let c := s.calibration.color_camera_calibration
  let s1 :=
    match created with
    | some i => { s with transformed_depth_image := some i }
    | none => s
  { s1 with
    cv_undistorted_color :=
      Mat.zeros (c.resolution_height / s.factor) (c.resolution_width / s.factor) MatType.CV_8UC4
    cv_undistorted_depth :=
      Mat.zeros (c.resolution_height / s.factor) (c.resolution_width / s.factor) MatType.CV_16U
    cv_depth_downscaled :=
      Mat.zeros (c.resolution_height / s.factor) (c.resolution_width / s.factor) MatType.CV_16U
    cv_color_downscaled :=
      Mat.zeros (c.resolution_height / s.factor) (c.resolution_width / s.factor) MatType.CV_8UC4 }

/-- What the device answers during `Start`. `calibration` is what the
out-parameter of `k4a_device_get_calibration` holds after the call. -/
structure StartEnv where
  device_count : Nat
  device_open : k4a_result_t
  device_start_cameras : k4a_result_t
  device_get_calibration : k4a_result_t
  calibration : k4a_calibration_t
  device_set_color_control : k4a_result_t
  image_create : Option k4a_image

/-- The function `Start`. The macro `K4A_CHECK` is declared outside this file:
`K4A_CHECK r` tells whether execution goes on after `K4A_CHECK(x)` when `x`
evaluates to `r`. From `init_memory` on, the definition follows the source for
`factor ≥ 1` only: with `factor = 0` the source divides by zero in
`init_memory` and does not get further, so every statement about a completed
`Start` assumes `0 < factor`. -/
def Start (K4A_CHECK : k4a_result_t → Bool) (B : Backend) (env : StartEnv)
    (s : K4AInputThread) : K4AInputThread :=
  if env.device_count = 0 then s
  else
    let s1 := s.call Call.k4a_device_open
    if env.device_open ≠ k4a_result_t.K4A_RESULT_SUCCEEDED then s1
    else
      let s2 :=
        { s1 with
          config :=
            { camera_fps := k4a_fps_t.K4A_FRAMES_PER_SECOND_30
              color_format := k4a_image_format_t.K4A_IMAGE_FORMAT_COLOR_MJPG
              color_resolution := k4a_color_resolution_t.K4A_COLOR_RESOLUTION_720P
              depth_mode := k4a_depth_mode_t.K4A_DEPTH_MODE_WFOV_2X2BINNED
              synchronized_images_only := true } }
      -- a failure of k4a_device_start_cameras is logged, nothing else
      let s3 := s2.call Call.k4a_device_start_cameras
      -- a failure of k4a_device_get_calibration is logged, nothing else
      let s4 := { s3.call Call.k4a_device_get_calibration with calibration := env.calibration }
      let s5 := s4.call Call.k4a_device_set_color_control
      if K4A_CHECK env.device_set_color_control = false then s5
      else
        let s6 := init_memory env.image_create s5
        let s7 := init_undistortion_map B s6
        let color_parameters : List Rat :=
          [s7.new_camera_matrix.a00, s7.new_camera_matrix.a11,
           s7.new_camera_matrix.a02 + 1 / 2, s7.new_camera_matrix.a12 + 1 / 2]
        { s7 with
          color_camera :=
            some { width := s7.width / s7.factor, height := s7.height / s7.factor,
                   parameters := color_parameters }
          depth_camera :=
            some { width := s7.width / s7.factor, height := s7.height / s7.factor,
                   parameters := color_parameters }
          exit_ := false
          thread_ := true }

/-! ## Producer thread -/

/-- The function `decode_image_opencv`; `none` is `return false`. -/
def decode_image_opencv (B : Backend) (s : K4AInputThread) (color_image : k4a_image) :
    K4AInputThread × Option Mat :=
  match B.imdecode color_image.buffer with
  | none => (s, none)
  | some decodedImage =>
    match B.k4a_image_create_from_buffer decodedImage with
    | some i => ({ s with uncompressed_color_image := some i }, some decodedImage)
    | none => (s, some decodedImage)

/-- The function `transform_depth_to_color`; `none` is `return false`. -/
def transform_depth_to_color (B : Backend) (s : K4AInputThread) (depth_image : k4a_image) :
    Option K4AInputThread :=
  match B.k4a_transformation_depth_image_to_color_camera depth_image
      s.transformed_depth_image with
  | none => none
  | some i => some { s with transformed_depth_image := some i }

/-- The function `undistort_depth_and_rgb`, which always returns `true`; the
result is the new state with the two output matrices `undistorted_color` and
`undistorted_depth`, or `none` when an OpenCV call raises. -/
def undistort_depth_and_rgb (B : Backend) (s : K4AInputThread) (cv_color cv_depth : Mat) :
    Option (K4AInputThread × Mat × Mat) :=
  match cv_resize B cv_depth s.cv_depth_downscaled.rows s.cv_depth_downscaled.cols with
  | none => none
  | some resized_depth =>
    let cv_depth_downscaled := { resized_depth with data := B.scale resized_depth.data }
    match cv_resize B cv_color s.cv_color_downscaled.rows s.cv_color_downscaled.cols with
    | none => none
    | some cv_color_downscaled =>
      match cv_remap B cv_depth_downscaled s.map1 s.map2 with
      | none => none
      | some undistorted_depth =>
        match cv_remap B cv_color_downscaled s.map1 s.map2 with
        | none => none
        | some undistorted_color =>
          some ({ s with
                  cv_depth_downscaled := cv_depth_downscaled
                  cv_color_downscaled := cv_color_downscaled },
                undistorted_color, undistorted_depth)

/-- What the environment answers in one round of a loop of `ThreadMain`: the
value of `exit_` read there, the value of `clock()`, the result of
`k4a_device_get_capture` and the capture it delivers on success. -/
structure Tick where
  exit_ : Bool
  clock : Int
  result : k4a_wait_result_t
  capture : k4a_capture
  deriving DecidableEq, Repr

/-- Where the producer thread stands. `Aborted` is an uncaught `cv::Exception`. -/
inductive Phase
  | AwaitingFirstCapture
  | Streaming
  | Stopped
  | Aborted
  deriving DecidableEq, Repr

/-- How one round of `while (true)` ends. -/
inductive Flow
  | continue_ (s : K4AInputThread)
  | break_ (s : K4AInputThread)
  | thrown (s : K4AInputThread)
  deriving DecidableEq, Repr

/-- The first loop of `ThreadMain` (wait for the first capture). The second
component is what is left of the ticks when the loop is over, `none` when the
ticks are used up inside the loop. -/
def first_capture_loop (CLOCKS_PER_SEC first_capture_start : Int) (s : K4AInputThread) :
    List Tick → K4AInputThread × Option (List Tick)
  | [] => (s, none)
  | t :: ts =>
    if !t.exit_ && decide (t.clock - first_capture_start < CLOCKS_PER_SEC * 60) then
      let s1 := s.call (Call.k4a_device_get_capture 100)
      match t.result with
      | k4a_wait_result_t.K4A_WAIT_RESULT_SUCCEEDED =>
        (s1.call (Call.k4a_capture_release t.capture.handle), some ts)
      | k4a_wait_result_t.K4A_WAIT_RESULT_FAILED =>
        -- logged, nothing else
        first_capture_loop CLOCKS_PER_SEC first_capture_start s1 ts
      | k4a_wait_result_t.K4A_WAIT_RESULT_TIMEOUT =>
        first_capture_loop CLOCKS_PER_SEC first_capture_start s1 ts
    else (s, some ts)

/-- The part of a round of `while (true)` after the color image is available
as `cv_uncompressed_color_image`: reprojection, undistortion, push, release. -/
def finish_frame (B : Backend) (s : K4AInputThread) (capture : k4a_capture)
    (k4a_rgb_image k4a_depth_image : k4a_image) (cv_uncompressed_color_image : Mat) : Flow :=
  match transform_depth_to_color B s k4a_depth_image with
  | none => Flow.break_ s
  | some s1 =>
    let cv_transformed_depth_image : Mat :=
      { rows := k4a_image_get_height_pixels s1.transformed_depth_image
        cols := k4a_image_get_width_pixels s1.transformed_depth_image
        type := MatType.CV_16U
        data := k4a_image_get_buffer s1.transformed_depth_image }
    match undistort_depth_and_rgb B s1 cv_uncompressed_color_image
        cv_transformed_depth_image with
    | none => Flow.thrown s1
    | some (s2, undistorted_color, undistorted_depth) =>
      let cv_undistorted_color_noalpha : Mat :=
        { rows := undistorted_color.rows, cols := undistorted_color.cols,
          type := MatType.CV_8UC3, data := B.cvtColor undistorted_color.data }
      let s3 :=
        { s2 with
          cv_undistorted_color := undistorted_color
          cv_undistorted_depth := undistorted_depth
          cv_undistorted_color_noalpha := cv_undistorted_color_noalpha }
      let depth_image : Image Pixel.u16 :=
        { width := undistorted_depth.cols, height := undistorted_depth.rows,
          data := undistorted_depth.data }
      let color_image : Image Pixel.Vec3u8 :=
        { width := cv_undistorted_color_noalpha.cols,
          height := cv_undistorted_color_noalpha.rows,
          data := cv_undistorted_color_noalpha.data }
      let s4 := Push s3 depth_image color_image
      Flow.continue_
        ((((s4.call Call.notify_all).call (Call.k4a_image_release k4a_rgb_image.handle)).call
          (Call.k4a_image_release k4a_depth_image.handle)).call
          (Call.k4a_capture_release capture.handle))

/-- One round of the loop `while (true)` of `ThreadMain`. -/
def loop_body (B : Backend) (s : K4AInputThread) (t : Tick) : Flow :=
  if t.exit_ then Flow.break_ (s.call Call.k4a_device_close)
  else
    let camera_fps := k4a_convert_fps_to_uint s.config.camera_fps
    let timeout_ms := 1000 / camera_fps
    let s1 := s.call (Call.k4a_device_get_capture timeout_ms)
    match t.result with
    | k4a_wait_result_t.K4A_WAIT_RESULT_TIMEOUT => Flow.continue_ s1
    | k4a_wait_result_t.K4A_WAIT_RESULT_FAILED => Flow.break_ s1
    | k4a_wait_result_t.K4A_WAIT_RESULT_SUCCEEDED =>
      match t.capture.color_image, t.capture.depth_image with
      | some k4a_rgb_image, some k4a_depth_image =>
        match s1.config.color_format with
        | k4a_image_format_t.K4A_IMAGE_FORMAT_COLOR_MJPG =>
          match decode_image_opencv B s1 k4a_rgb_image with
          | (_, none) => Flow.break_ s1
          | (s2, some cv_uncompressed_color_image) =>
            finish_frame B s2 t.capture k4a_rgb_image k4a_depth_image
              cv_uncompressed_color_image
        | k4a_image_format_t.K4A_IMAGE_FORMAT_COLOR_BGRA32 =>
          finish_frame B s1 t.capture k4a_rgb_image k4a_depth_image
            { rows := s1.height, cols := s1.width, type := MatType.CV_8UC4,
              data := k4a_rgb_image.buffer }
        | k4a_image_format_t.K4A_IMAGE_FORMAT_COLOR_YUY2 =>
          -- the converted image is only displayed; cv_uncompressed_color_image stays empty
          finish_frame B s1 t.capture k4a_rgb_image k4a_depth_image Mat.default
        | k4a_image_format_t.K4A_IMAGE_FORMAT_COLOR_NV12 =>
          finish_frame B s1 t.capture k4a_rgb_image k4a_depth_image
            { rows := (s1.height * 3 / 2) * 2 / 3, cols := s1.width, type := MatType.CV_8UC3,
              data := B.cvtColor k4a_rgb_image.buffer }
      | k4a_rgb_image, k4a_depth_image =>
        let s2 :=
          match k4a_rgb_image with
          | some i => s1.call (Call.k4a_image_release i.handle)
          | none => s1
        let s3 :=
          match k4a_depth_image with
          | some i => s2.call (Call.k4a_image_release i.handle)
          | none => s2
        Flow.continue_ (s3.call (Call.k4a_capture_release t.capture.handle))

/-- The state carried by the outcome of a round. -/
def Flow.state : Flow → K4AInputThread
  | Flow.continue_ s => s
  | Flow.break_ s => s
  | Flow.thrown s => s

/-- States that can be produced from two empty queues by the operations of the
class: a push, a call of `GetNextFrame` (first-call clear, pushes arriving
while it waits, pop of both fronts), a round of the loop of `ThreadMain`, the
wait for the first capture, and `Start`. -/
inductive Reachable : K4AInputThread → Prop
  | start (s : K4AInputThread) (hd : s.depth_image_queue = [])
      (hc : s.color_image_queue = []) : Reachable s
  | push (s : K4AInputThread) (d : Image Pixel.u16) (c : Image Pixel.Vec3u8)
      (h : Reachable s) : Reachable (Push s d c)
  | pull (s : K4AInputThread) (wakeups : List (List FramePair))
      (h : Reachable s) : Reachable (GetNextFrame s wakeups).state
  | round (B : Backend) (s : K4AInputThread) (t : Tick)
      (h : Reachable s) : Reachable (loop_body B s t).state
  | first_wait (CLOCKS_PER_SEC first_capture_start : Int) (s : K4AInputThread)
      (ticks : List Tick) (h : Reachable s) :
      Reachable (first_capture_loop CLOCKS_PER_SEC first_capture_start s ticks).1
  | started (K4A_CHECK : k4a_result_t → Bool) (B : Backend) (env : StartEnv)
      (s : K4AInputThread) (h : Reachable s) : Reachable (Start K4A_CHECK B env s)

/-- The loop `while (true)` of `ThreadMain`, one tick per round. -/
def streaming_loop (B : Backend) (s : K4AInputThread) : List Tick → K4AInputThread × Phase
  | [] => (s, Phase.Streaming)
  | t :: ts =>
    match loop_body B s t with
    | Flow.continue_ s1 => streaming_loop B s1 ts
    | Flow.break_ s1 => (s1, Phase.Stopped)
    | Flow.thrown s1 => (s1, Phase.Aborted)

/-- The statement after the loop: `k4a_device_close(device)`, reached by `break`. -/
def after_loop : K4AInputThread × Phase → K4AInputThread × Phase
  | (s, Phase.Stopped) => (s.call Call.k4a_device_close, Phase.Stopped)
  | r => r

/-- The function `ThreadMain`, run on the ticks given; `CLOCKS_PER_SEC` is the
constant of `<ctime>` and `first_capture_start` the first value of `clock()`. -/
def ThreadMain (B : Backend) (CLOCKS_PER_SEC first_capture_start : Int) (s : K4AInputThread)
    (ticks : List Tick) : K4AInputThread × Phase :=
  match first_capture_loop CLOCKS_PER_SEC first_capture_start s ticks with
  | (s1, none) => (s1, Phase.AwaitingFirstCapture)
  | (s1, some rest) => after_loop (streaming_loop B s1 rest)

/-- A thread object before `Start`, in a process where `GetNextFrame` has not
been called yet: empty queues, `first == true`, downscale factor 1. -/
def fresh : K4AInputThread :=
  { exit_ := false, thread_ := false,
    config :=
      { camera_fps := k4a_fps_t.K4A_FRAMES_PER_SECOND_30
        color_format := k4a_image_format_t.K4A_IMAGE_FORMAT_COLOR_MJPG
        color_resolution := k4a_color_resolution_t.K4A_COLOR_RESOLUTION_OFF
        depth_mode := k4a_depth_mode_t.K4A_DEPTH_MODE_OFF
        synchronized_images_only := false },
    calibration :=
      { color_camera_calibration :=
          { resolution_width := 0, resolution_height := 0,
            intrinsics :=
              { cx := 0, cy := 0, fx := 0, fy := 0, k1 := 0, k2 := 0, k3 := 0, k4 := 0,
                k5 := 0, k6 := 0, p1 := 0, p2 := 0 } } },
    width := 0, height := 0, factor := 1,
    camera_matrix := Mat33.zero, new_camera_matrix := Mat33.zero,
    map1 := Mat.default, map2 := Mat.default,
    cv_undistorted_color := Mat.default, cv_undistorted_depth := Mat.default,
    cv_depth_downscaled := Mat.default, cv_color_downscaled := Mat.default,
    cv_undistorted_color_noalpha := Mat.default,
    transformed_depth_image := none, uncompressed_color_image := none,
    depth_image_queue := [], color_image_queue := [], first := true,
    color_camera := none, depth_camera := none,
    depth_frames := [], color_frames := [], trace := [] }

/-- A backend for concrete runs: a raw color buffer with code 0 does not
decode, every other buffer decodes to a 1280x720 image; reprojection succeeds
whenever a target image exists. -/
def sampleBackend : Backend :=
  { imdecode := fun buf =>
      if buf = 0 then none
      else some { rows := 720, cols := 1280, type := MatType.CV_8UC3, data := buf },
    k4a_image_create_from_buffer := fun m =>
      some { handle := 900, width_pixels := m.cols, height_pixels := m.rows, buffer := m.data },
    k4a_transformation_depth_image_to_color_camera := fun depth target =>
      match target with
      | some i => some { i with buffer := depth.buffer }
      | none => none,
    resize := fun d _ _ => d,
    scale := fun d => 5 * d,
    remap := fun d _ _ => d,
    cvtColor := fun d => d,
    getOptimalNewCameraMatrix := fun m _ _ _ => m,
    initUndistortRectifyMap := fun _ _ _ _ _ => (1, 2) }

/-- A calibration of a 1280x720 color camera with the focal lengths given. -/
def sampleCalibration (fx fy : Rat) : k4a_calibration_t :=
  { color_camera_calibration :=
      { resolution_width := 1280, resolution_height := 720,
        intrinsics :=
          { cx := 640, cy := 360, fx := fx, fy := fy, k1 := 0, k2 := 0, k3 := 0, k4 := 0,
            k5 := 0, k6 := 0, p1 := 0, p2 := 0 } } }

/-- A device that is found and answers every start-up call with success. -/
def sampleEnv : StartEnv :=
  { device_count := 1,
    device_open := k4a_result_t.K4A_RESULT_SUCCEEDED,
    device_start_cameras := k4a_result_t.K4A_RESULT_SUCCEEDED,
    device_get_calibration := k4a_result_t.K4A_RESULT_SUCCEEDED,
    calibration := sampleCalibration 600 600,
    device_set_color_control := k4a_result_t.K4A_RESULT_SUCCEEDED,
    image_create := some { handle := 800, width_pixels := 1280, height_pixels := 720, buffer := 0 } }

/-- The thread object after a successful `Start` on `sampleEnv`. -/
def started : K4AInputThread := Start (fun _ => true) sampleBackend sampleEnv fresh

/-- A capture holding a depth image and a color image with the given raw buffers. -/
def sampleCapture (handle depth_buffer color_buffer : Nat) : k4a_capture :=
  { handle := handle,
    depth_image :=
      some { handle := handle + 1, width_pixels := 512, height_pixels := 512,
             buffer := depth_buffer },
    color_image :=
      some { handle := handle + 2, width_pixels := 1280, height_pixels := 720,
             buffer := color_buffer } }

/-- A round in which `exit_` is false and the device delivers `capture`. -/
def captureTick (clock : Int) (capture : k4a_capture) : Tick :=
  { exit_ := false, clock := clock,
    result := k4a_wait_result_t.K4A_WAIT_RESULT_SUCCEEDED, capture := capture }

/-- A round in which `exit_` is false and the device answers `result` without a capture. -/
def emptyTick (clock : Int) (result : k4a_wait_result_t) : Tick :=
  { exit_ := false, clock := clock, result := result,
    capture := { handle := 0, depth_image := none, color_image := none } }

/-- The state reached by `ThreadMain` on `started` once a first capture has
succeeded: the thread is in its streaming loop and has pushed nothing yet. -/
def streaming : K4AInputThread :=
  (ThreadMain sampleBackend 1000000 0 started [captureTick 10 (sampleCapture 10 7 9)]).1

/-- The calls `k4a_image_release` made for an image handle that is not `NULL`. -/
def image_release_calls : Option k4a_image → List Call
  | some i => [Call.k4a_image_release i.handle]
  | none => []

/-- The state in which `Start` reaches `init_memory` when a device is found,
opens, and the color-control check lets execution go on. -/
def before_init_memory (env : StartEnv) (s : K4AInputThread) : K4AInputThread :=
  ({ ({ s.call Call.k4a_device_open with
        config :=
          { camera_fps := k4a_fps_t.K4A_FRAMES_PER_SECOND_30
            color_format := k4a_image_format_t.K4A_IMAGE_FORMAT_COLOR_MJPG
            color_resolution := k4a_color_resolution_t.K4A_COLOR_RESOLUTION_720P
            depth_mode := k4a_depth_mode_t.K4A_DEPTH_MODE_WFOV_2X2BINNED
            synchronized_images_only := true } }.call
        Call.k4a_device_start_cameras).call Call.k4a_device_get_calibration with
      calibration := env.calibration }).call Call.k4a_device_set_color_control

/-- The two camera models `Start` installs, given the state after
`init_undistortion_map`. -/
def installed_camera (s : K4AInputThread) : PinholeCamera4f :=
  { width := s.width / s.factor, height := s.height / s.factor,
    parameters :=
      [s.new_camera_matrix.a00, s.new_camera_matrix.a11,
       s.new_camera_matrix.a02 + 1 / 2, s.new_camera_matrix.a12 + 1 / 2] }

/-- How many times `k4a_device_close` has been called so far. -/
def close_count (s : K4AInputThread) : Nat :=
  s.trace.count Call.k4a_device_close

/-- A round at whose top `exit_` is read as true (the destructor has set it). -/
def exitTick (clock : Int) : Tick :=
  { exit_ := true, clock := clock,
    result := k4a_wait_result_t.K4A_WAIT_RESULT_TIMEOUT,
    capture := { handle := 0, depth_image := none, color_image := none } }

/-! ## Frame queue: lemmas -/

theorem PushAll_eq (pairs : List FramePair) (s : K4AInputThread) :
    PushAll s pairs =
      { s with
        depth_image_queue := s.depth_image_queue ++ pairs.map Prod.fst
        color_image_queue := s.color_image_queue ++ pairs.map Prod.snd } := by
  induction pairs generalizing s with
  | nil => simp [PushAll]
  | cons p ps ih =>
    have h := ih (Push s p.1 p.2)
    simp only [PushAll, List.foldl_cons] at h ⊢
    rw [h]
    simp [Push]

theorem wait_loop_nonempty (s : K4AInputThread) (wakeups : List (List FramePair))
    (h : s.depth_image_queue ≠ []) : wait_loop s wakeups = s := by
  cases wakeups with
  | nil => rfl
  | cons b more =>
    cases hq : s.depth_image_queue with
    | nil => exact absurd hq h
    | cons d ds => simp [wait_loop, hq]

/-- Equal queue lengths are kept by the wait loop. -/
theorem wait_loop_length (wakeups : List (List FramePair)) (s : K4AInputThread)
    (h : s.depth_image_queue.length = s.color_image_queue.length) :
    (wait_loop s wakeups).depth_image_queue.length =
      (wait_loop s wakeups).color_image_queue.length := by
  induction wakeups generalizing s with
  | nil => simpa [wait_loop] using h
  | cons b more ih =>
    unfold wait_loop
    split
    · apply ih
      rw [PushAll_eq]
      simp [h]
    · exact h

/-- Equal queue lengths are kept by `GetNextFrame`, which then never takes the
front of an empty color queue. -/
theorem GetNextFrame_length (s : K4AInputThread) (wakeups : List (List FramePair))
    (h : s.depth_image_queue.length = s.color_image_queue.length) :
    (GetNextFrame s wakeups).state.depth_image_queue.length =
        (GetNextFrame s wakeups).state.color_image_queue.length ∧
      ∀ t, GetNextFrame s wakeups ≠ Pulled.undefined_front t := by
  have h1 : (if s.first then
        { s with depth_image_queue := [], color_image_queue := [], first := false }
      else s).depth_image_queue.length =
      (if s.first then
        { s with depth_image_queue := [], color_image_queue := [], first := false }
      else s).color_image_queue.length := by
    split
    · rfl
    · exact h
  have h2 := wait_loop_length wakeups _ h1
  unfold GetNextFrame
  simp only
  generalize wait_loop _ wakeups = s2 at h2 ⊢
  cases hd : s2.depth_image_queue with
  | nil =>
    simp only [Pulled.state]
    refine ⟨?_, fun t => by simp⟩
    rw [← h2, hd]
  | cons d ds =>
    cases hc : s2.color_image_queue with
    | nil => rw [hd, hc] at h2; simp at h2
    | cons c cs =>
      rw [hd, hc] at h2
      simp only [Pulled.state]
      refine ⟨by simpa using h2, fun t => by simp⟩

theorem transform_depth_to_color_queues (B : Backend) (s s1 : K4AInputThread)
    (depth_image : k4a_image) (h : transform_depth_to_color B s depth_image = some s1) :
    s1.depth_image_queue = s.depth_image_queue ∧
      s1.color_image_queue = s.color_image_queue := by
  unfold transform_depth_to_color at h
  split at h
  · simp at h
  · simp only [Option.some.injEq] at h
    subst h
    exact ⟨rfl, rfl⟩

theorem undistort_depth_and_rgb_queues (B : Backend) (s s1 : K4AInputThread)
    (cv_color cv_depth uc ud : Mat)
    (h : undistort_depth_and_rgb B s cv_color cv_depth = some (s1, uc, ud)) :
    s1.depth_image_queue = s.depth_image_queue ∧
      s1.color_image_queue = s.color_image_queue := by
  unfold undistort_depth_and_rgb at h
  cases h1 : cv_resize B cv_depth s.cv_depth_downscaled.rows s.cv_depth_downscaled.cols with
  | none => simp [h1] at h
  | some dd =>
    cases h2 : cv_resize B cv_color s.cv_color_downscaled.rows s.cv_color_downscaled.cols with
    | none => simp [h1, h2] at h
    | some cd =>
      cases h3 : cv_remap B { dd with data := B.scale dd.data } s.map1 s.map2 with
      | none => simp [h1, h2, h3] at h
      | some ud0 =>
        cases h4 : cv_remap B cd s.map1 s.map2 with
        | none => simp [h1, h2, h3, h4] at h
        | some uc0 =>
          simp only [h1, h2, h3, h4, Option.some.injEq, Prod.mk.injEq] at h
          obtain ⟨e, _, _⟩ := h
          subst e
          exact ⟨rfl, rfl⟩

theorem decode_image_opencv_queues (B : Backend) (s : K4AInputThread) (color_image : k4a_image) :
    (decode_image_opencv B s color_image).1.depth_image_queue = s.depth_image_queue ∧
      (decode_image_opencv B s color_image).1.color_image_queue = s.color_image_queue := by
  unfold decode_image_opencv
  split
  · exact ⟨rfl, rfl⟩
  · split <;> exact ⟨rfl, rfl⟩

/-- A round that gets as far as the push keeps the queue lengths equal. -/
theorem finish_frame_length (B : Backend) (s : K4AInputThread) (capture : k4a_capture)
    (rgb dep : k4a_image) (m : Mat)
    (h : s.depth_image_queue.length = s.color_image_queue.length) :
    (finish_frame B s capture rgb dep m).state.depth_image_queue.length =
      (finish_frame B s capture rgb dep m).state.color_image_queue.length := by
  unfold finish_frame
  cases ht : transform_depth_to_color B s dep with
  | none => simpa [Flow.state] using h
  | some s1 =>
    obtain ⟨hd1, hc1⟩ := transform_depth_to_color_queues B s s1 dep ht
    simp only
    cases hu : undistort_depth_and_rgb B s1 m
        { rows := k4a_image_get_height_pixels s1.transformed_depth_image
          cols := k4a_image_get_width_pixels s1.transformed_depth_image
          type := MatType.CV_16U
          data := k4a_image_get_buffer s1.transformed_depth_image } with
    | none => simp [Flow.state, hd1, hc1, h]
    | some r =>
      obtain ⟨s2, uc, ud⟩ := r
      obtain ⟨hd2, hc2⟩ := undistort_depth_and_rgb_queues B s1 s2 m _ uc ud hu
      simp [Flow.state, Push, K4AInputThread.call, hd2, hc2, hd1, hc1, h]

/-- One round of the loop of `ThreadMain` keeps the queue lengths equal. -/
theorem loop_body_length (B : Backend) (s : K4AInputThread) (t : Tick)
    (h : s.depth_image_queue.length = s.color_image_queue.length) :
    (loop_body B s t).state.depth_image_queue.length =
      (loop_body B s t).state.color_image_queue.length := by
  unfold loop_body
  cases hexit : t.exit_ with
  | true => simpa [Flow.state, K4AInputThread.call] using h
  | false =>
    simp only [Bool.false_eq_true, if_false]
    cases hr : t.result with
    | K4A_WAIT_RESULT_TIMEOUT => simpa [Flow.state, K4AInputThread.call] using h
    | K4A_WAIT_RESULT_FAILED => simpa [Flow.state, K4AInputThread.call] using h
    | K4A_WAIT_RESULT_SUCCEEDED =>
      simp only
      cases hc : t.capture.color_image with
      | none =>
        cases hd : t.capture.depth_image <;>
          simpa [Flow.state, K4AInputThread.call] using h
      | some rgb =>
        cases hd : t.capture.depth_image with
        | none => simpa [Flow.state, K4AInputThread.call] using h
        | some dep =>
          simp only
          have hs1 : (s.call (Call.k4a_device_get_capture
              (1000 / k4a_convert_fps_to_uint s.config.camera_fps))).depth_image_queue.length =
              (s.call (Call.k4a_device_get_capture
              (1000 / k4a_convert_fps_to_uint s.config.camera_fps))).color_image_queue.length := h
          cases hf : (s.call (Call.k4a_device_get_capture
              (1000 / k4a_convert_fps_to_uint s.config.camera_fps))).config.color_format with
          | K4A_IMAGE_FORMAT_COLOR_MJPG =>
            simp only
            have hq := decode_image_opencv_queues B (s.call (Call.k4a_device_get_capture
              (1000 / k4a_convert_fps_to_uint s.config.camera_fps))) rgb
            cases hdec : decode_image_opencv B (s.call (Call.k4a_device_get_capture
              (1000 / k4a_convert_fps_to_uint s.config.camera_fps))) rgb with
            | mk s2 r =>
              rw [hdec] at hq
              cases r with
              | none => simpa [Flow.state, K4AInputThread.call] using h
              | some m =>
                apply finish_frame_length
                rw [hq.1, hq.2]
                exact hs1
          | K4A_IMAGE_FORMAT_COLOR_BGRA32 => exact finish_frame_length B _ _ _ _ _ hs1
          | K4A_IMAGE_FORMAT_COLOR_YUY2 => exact finish_frame_length B _ _ _ _ _ hs1
          | K4A_IMAGE_FORMAT_COLOR_NV12 => exact finish_frame_length B _ _ _ _ _ hs1

theorem first_capture_loop_queues (CPS start : Int) (ticks : List Tick) :
    ∀ s : K4AInputThread,
      (first_capture_loop CPS start s ticks).1.depth_image_queue = s.depth_image_queue ∧
        (first_capture_loop CPS start s ticks).1.color_image_queue = s.color_image_queue := by
  induction ticks with
  | nil => intro s; exact ⟨rfl, rfl⟩
  | cons t ts ih =>
    intro s
    unfold first_capture_loop
    split
    · cases hr : t.result with
      | K4A_WAIT_RESULT_SUCCEEDED => exact ⟨rfl, rfl⟩
      | K4A_WAIT_RESULT_FAILED => exact ih _
      | K4A_WAIT_RESULT_TIMEOUT => exact ih _
    · exact ⟨rfl, rfl⟩

theorem Start_queues (K4A_CHECK : k4a_result_t → Bool) (B : Backend) (env : StartEnv)
    (s : K4AInputThread) :
    (Start K4A_CHECK B env s).depth_image_queue = s.depth_image_queue ∧
      (Start K4A_CHECK B env s).color_image_queue = s.color_image_queue := by
  unfold Start
  split
  · exact ⟨rfl, rfl⟩
  · split
    · exact ⟨rfl, rfl⟩
    · split
      · exact ⟨rfl, rfl⟩
      · cases hi : env.image_create <;>
          simp [init_undistortion_map, init_memory, K4AInputThread.call]

theorem Reachable_length (s : K4AInputThread) (h : Reachable s) :
    s.depth_image_queue.length = s.color_image_queue.length := by
  induction h with
  | start s hd hc => simp [hd, hc]
  | push s d c _ ih => simp [Push, ih]
  | pull s wakeups _ ih => exact (GetNextFrame_length s wakeups ih).1
  | round B s t _ ih => exact loop_body_length B s t ih
  | first_wait CPS st s ticks _ ih =>
    rw [(first_capture_loop_queues CPS st ticks s).1, (first_capture_loop_queues CPS st ticks s).2]
    exact ih
  | started K B env s _ ih =>
    rw [(Start_queues K B env s).1, (Start_queues K B env s).2]
    exact ih

/-- A call of `GetNextFrame` with the flag `first` already cleared, on queues
whose fronts are `d` and `c`. -/
theorem GetNextFrame_later (s : K4AInputThread) (wakeups : List (List FramePair))
    (d : Image Pixel.u16) (ds : List (Image Pixel.u16))
    (c : Image Pixel.Vec3u8) (cs : List (Image Pixel.Vec3u8))
    (hfirst : s.first = false) (hd : s.depth_image_queue = d :: ds)
    (hc : s.color_image_queue = c :: cs) :
    GetNextFrame s wakeups =
      Pulled.returned
        { s with
          depth_image_queue := ds
          color_image_queue := cs
          depth_frames := s.depth_frames ++ [d]
          color_frames := s.color_frames ++ [c] } := by
  have hne : s.depth_image_queue ≠ [] := by rw [hd]; simp
  unfold GetNextFrame
  simp only [hfirst, Bool.false_eq_true, if_false, wait_loop_nonempty s wakeups hne, hd, hc]

theorem PullN_aligned (pairs : List FramePair) (s : K4AInputThread)
    (hfirst : s.first = false)
    (hd : s.depth_image_queue = pairs.map Prod.fst)
    (hc : s.color_image_queue = pairs.map Prod.snd) :
    PullN pairs.length s =
      Pulled.returned
        { s with
          depth_image_queue := []
          color_image_queue := []
          depth_frames := s.depth_frames ++ pairs.map Prod.fst
          color_frames := s.color_frames ++ pairs.map Prod.snd } := by
  induction pairs generalizing s with
  | nil =>
    simp only [List.map_nil] at hd hc
    simp only [List.length_nil, PullN, List.map_nil, List.append_nil]
    rw [← hd, ← hc]
  | cons p ps ih =>
    simp only [List.map_cons] at hd hc
    simp only [List.length_cons, PullN, GetNextFrame_later s [] _ _ _ _ hfirst hd hc]
    rw [ih]
    · simp
    · exact hfirst
    · rfl
    · rfl

theorem wait_loop_spurious (n : Nat) (s : K4AInputThread) (p : FramePair)
    (batch : List FramePair) (more : List (List FramePair))
    (h : s.depth_image_queue = []) :
    wait_loop s (List.replicate n [] ++ (p :: batch) :: more) = PushAll s (p :: batch) := by
  induction n with
  | zero =>
    simp only [List.replicate_zero, List.nil_append, wait_loop, h, List.isEmpty_nil, if_true]
    apply wait_loop_nonempty
    rw [PushAll_eq]
    simp
  | succ n ih =>
    simp only [List.replicate_succ, List.cons_append, wait_loop, h, List.isEmpty_nil, if_true]
    have : PushAll s [] = s := rfl
    rw [this]
    exact ih

theorem GetNextFrame_first_false (s : K4AInputThread) (wakeups : List (List FramePair)) :
    (GetNextFrame s wakeups).state.first = false := by
  have key : ∀ (w : List (List FramePair)) (u : K4AInputThread),
      (wait_loop u w).first = u.first := by
    intro w
    induction w with
    | nil => intro u; rfl
    | cons b more ih =>
      intro u
      unfold wait_loop
      split
      · rw [ih, PushAll_eq]
      · rfl
  have h1 : (if s.first then
        { s with depth_image_queue := [], color_image_queue := [], first := false }
      else s).first = false := by
    cases hf : s.first <;> simp [hf]
  have h2 := (key wakeups _).trans h1
  unfold GetNextFrame
  simp only
  generalize wait_loop _ wakeups = s2 at h2 ⊢
  cases hd : s2.depth_image_queue with
  | nil => simpa [Pulled.state] using h2
  | cons d ds =>
    cases hc : s2.color_image_queue with
    | nil => simpa [Pulled.state] using h2
    | cons c cs => simpa [Pulled.state] using h2

/-! ## Frame queue: claims -/

/-- C1 (amended): once the static flag `first` of `GetNextFrame` is already
false (the call has been made before), pushing N pairs onto empty queues and
then calling `GetNextFrame` N times returns every time and appends exactly
those N pairs to the consumer's frame lists, in push order, the i-th depth next
to the color pushed with it; both queues are empty again. -/
theorem roundtrip_after_first_call (s : K4AInputThread) (pairs : List FramePair)
    (hfirst : s.first = false) (hd : s.depth_image_queue = [])
    (hc : s.color_image_queue = []) :
    PullN pairs.length (PushAll s pairs) =
      Pulled.returned
        { s with
          depth_frames := s.depth_frames ++ pairs.map Prod.fst
          color_frames := s.color_frames ++ pairs.map Prod.snd } := by
  have h := PullN_aligned pairs (PushAll s pairs)
    (by rw [PushAll_eq]; exact hfirst)
    (by rw [PushAll_eq]; simp [hd])
    (by rw [PushAll_eq]; simp [hc])
  rw [h, PushAll_eq]
  simp only [Pulled.returned.injEq]
  rw [← hd, ← hc]

theorem roundtrip_after_first_call_witness :
    ({ fresh with first := false } : K4AInputThread).first = false ∧
    PullN 2 (PushAll { fresh with first := false }
        [(⟨4, 3, 10⟩, ⟨4, 3, 11⟩), (⟨4, 3, 20⟩, ⟨4, 3, 21⟩)]) =
      Pulled.returned
        { fresh with
          first := false
          depth_frames := [⟨4, 3, 10⟩, ⟨4, 3, 20⟩]
          color_frames := [⟨4, 3, 11⟩, ⟨4, 3, 21⟩] } :=
  ⟨rfl, roundtrip_after_first_call { fresh with first := false }
    [(⟨4, 3, 10⟩, ⟨4, 3, 11⟩), (⟨4, 3, 20⟩, ⟨4, 3, 21⟩)] rfl rfl rfl⟩

/-- C1 fails as stated: in a fresh process (`first == true`, empty queues) one
pair is pushed and `GetNextFrame` is called once; the call clears the queues,
finds them empty and waits, so the consumer receives nothing. -/
theorem roundtrip_fails_on_first_call :
    PullN 1 (PushAll fresh [(⟨4, 3, 10⟩, ⟨4, 3, 11⟩)]) =
        Pulled.blocked { fresh with first := false } ∧
      (PullN 1 (PushAll fresh [(⟨4, 3, 10⟩, ⟨4, 3, 11⟩)])).state.depth_frames = [] ∧
      (PullN 1 (PushAll fresh [(⟨4, 3, 10⟩, ⟨4, 3, 11⟩)])).state.color_frames = [] := by
  refine ⟨rfl, rfl, rfl⟩

/-- C2: in every state reachable from two empty queues (by the push, by
`GetNextFrame` with its first-call clear and its pop of both fronts, and by
the rounds of `ThreadMain` and `Start`, which touch the queues only through
the push), the depth queue and the color queue have the same length, and no
call of `GetNextFrame` takes the front of an empty color queue. -/
theorem queues_equal_length (s : K4AInputThread) (h : Reachable s) :
    s.depth_image_queue.length = s.color_image_queue.length ∧
      ∀ (wakeups : List (List FramePair)) (t : K4AInputThread),
        GetNextFrame s wakeups ≠ Pulled.undefined_front t :=
  ⟨Reachable_length s h, fun wakeups =>
    (GetNextFrame_length s wakeups (Reachable_length s h)).2⟩

theorem queues_equal_length_witness :
    Reachable (GetNextFrame (Push fresh ⟨4, 3, 10⟩ ⟨4, 3, 11⟩)
        [[(⟨4, 3, 20⟩, ⟨4, 3, 21⟩), (⟨4, 3, 30⟩, ⟨4, 3, 31⟩)]]).state ∧
      (GetNextFrame (Push fresh ⟨4, 3, 10⟩ ⟨4, 3, 11⟩)
        [[(⟨4, 3, 20⟩, ⟨4, 3, 21⟩), (⟨4, 3, 30⟩, ⟨4, 3, 31⟩)]]).state.depth_image_queue.length
        = 1 ∧
      (GetNextFrame (Push fresh ⟨4, 3, 10⟩ ⟨4, 3, 11⟩)
        [[(⟨4, 3, 20⟩, ⟨4, 3, 21⟩), (⟨4, 3, 30⟩, ⟨4, 3, 31⟩)]]).state.color_image_queue.length
        = 1 :=
  have hr : Reachable (GetNextFrame (Push fresh ⟨4, 3, 10⟩ ⟨4, 3, 11⟩)
      [[(⟨4, 3, 20⟩, ⟨4, 3, 21⟩), (⟨4, 3, 30⟩, ⟨4, 3, 31⟩)]]).state :=
    Reachable.pull _ _ (Reachable.push _ _ _ (Reachable.start fresh rfl rfl))
  ⟨hr, rfl, (queues_equal_length _ hr).1.symm.trans rfl⟩

/-- C3: a call of `GetNextFrame` made while `first` is still true discards
whatever both queues hold, waits (through any number of spurious wake-ups) and
returns the first pair pushed afterwards, leaving in the queues only what was
pushed after that pair; every call ends with `first` false; a call made with
`first` false clears nothing: it returns the front pair and removes exactly
that pair from the two queues. -/
theorem first_call_clears_later_calls_pop
    (s t : K4AInputThread) (spurious : Nat) (p : FramePair) (batch : List FramePair)
    (more wakeups : List (List FramePair))
    (d : Image Pixel.u16) (ds : List (Image Pixel.u16))
    (c : Image Pixel.Vec3u8) (cs : List (Image Pixel.Vec3u8))
    (hs : s.first = true) (ht : t.first = false)
    (hd : t.depth_image_queue = d :: ds) (hc : t.color_image_queue = c :: cs) :
    GetNextFrame s (List.replicate spurious [] ++ (p :: batch) :: more) =
        Pulled.returned
          { s with
            first := false
            depth_image_queue := batch.map Prod.fst
            color_image_queue := batch.map Prod.snd
            depth_frames := s.depth_frames ++ [p.1]
            color_frames := s.color_frames ++ [p.2] } ∧
      (∀ (u : K4AInputThread) (w : List (List FramePair)),
        (GetNextFrame u w).state.first = false) ∧
      GetNextFrame t wakeups =
        Pulled.returned
          { t with
            depth_image_queue := ds
            color_image_queue := cs
            depth_frames := t.depth_frames ++ [d]
            color_frames := t.color_frames ++ [c] } := by
  refine ⟨?_, GetNextFrame_first_false, GetNextFrame_later t wakeups d ds c cs ht hd hc⟩
  unfold GetNextFrame
  simp only [hs, if_true]
  rw [wait_loop_spurious spurious _ p batch more rfl, PushAll_eq]
  simp

/-! ## Producer thread: lemmas -/

theorem first_capture_loop_append (CPS start : Int) (more : List Tick) (pre : List Tick) :
    ∀ (s s1 : K4AInputThread) (rest : List Tick),
      first_capture_loop CPS start s pre = (s1, some rest) →
      first_capture_loop CPS start s (pre ++ more) = (s1, some (rest ++ more)) := by
  induction pre with
  | nil => intro s s1 rest h; simp [first_capture_loop] at h
  | cons t ts ih =>
    intro s s1 rest h
    simp only [List.cons_append, first_capture_loop, List.append_eq] at h ⊢
    by_cases hc : (!t.exit_ && decide (t.clock - start < CPS * 60)) = true
    · simp only [hc, if_true] at h ⊢
      cases hr : t.result with
      | K4A_WAIT_RESULT_SUCCEEDED =>
        simp only [hr, Prod.mk.injEq, Option.some.injEq] at h ⊢
        exact ⟨h.1, by rw [h.2]⟩
      | K4A_WAIT_RESULT_FAILED =>
        simp only [hr] at h ⊢
        exact ih _ _ _ h
      | K4A_WAIT_RESULT_TIMEOUT =>
        simp only [hr] at h ⊢
        exact ih _ _ _ h
    · rw [if_neg hc] at h ⊢
      simp only [Prod.mk.injEq, Option.some.injEq] at h ⊢
      exact ⟨h.1, by rw [h.2]⟩

theorem streaming_loop_append (B : Backend) (more : List Tick) (pre : List Tick) :
    ∀ (s s1 : K4AInputThread),
      streaming_loop B s pre = (s1, Phase.Streaming) →
      streaming_loop B s (pre ++ more) = streaming_loop B s1 more := by
  induction pre with
  | nil =>
    intro s s1 h
    simp only [streaming_loop, Prod.mk.injEq, and_true] at h
    simp [h]
  | cons t ts ih =>
    intro s s1 h
    simp only [List.cons_append, streaming_loop, List.append_eq] at h ⊢
    cases hb : loop_body B s t with
    | continue_ s2 =>
      simp only [hb] at h ⊢
      exact ih _ _ h
    | break_ s2 => simp [hb] at h
    | thrown s2 => simp [hb] at h

theorem after_loop_streaming (r : K4AInputThread × Phase) (s : K4AInputThread)
    (h : after_loop r = (s, Phase.Streaming)) : r = (s, Phase.Streaming) := by
  obtain ⟨u, ph⟩ := r
  cases ph <;> simp_all [after_loop]

/-- Once `ThreadMain` is in its streaming loop, further ticks are consumed by
that loop from the state reached. -/
theorem ThreadMain_append (B : Backend) (CPS start : Int) (s0 s : K4AInputThread)
    (pre more : List Tick)
    (h : ThreadMain B CPS start s0 pre = (s, Phase.Streaming)) :
    ThreadMain B CPS start s0 (pre ++ more) = after_loop (streaming_loop B s more) := by
  unfold ThreadMain at h ⊢
  cases hf : first_capture_loop CPS start s0 pre with
  | mk s1 r =>
    cases r with
    | none => simp [hf] at h
    | some rest =>
      simp only [hf] at h
      have h1 := after_loop_streaming _ _ h
      rw [first_capture_loop_append CPS start more pre s0 s1 rest hf]
      simp only
      rw [streaming_loop_append B more rest s1 s h1]

theorem first_capture_loop_timeouts (CPS start : Int) (waits : List Tick) :
    ∀ (s : K4AInputThread) (rest : List Tick),
      (∀ w ∈ waits, w.exit_ = false ∧ w.clock - start < CPS * 60 ∧
        w.result = k4a_wait_result_t.K4A_WAIT_RESULT_TIMEOUT) →
      first_capture_loop CPS start s (waits ++ rest) =
        first_capture_loop CPS start
          { s with
            trace := s.trace ++ List.replicate waits.length (Call.k4a_device_get_capture 100) }
          rest := by
  induction waits with
  | nil => intro s rest _; simp
  | cons w ws ih =>
    intro s rest h
    have hw := h w (List.mem_cons_self _ _)
    have hws : ∀ x ∈ ws, x.exit_ = false ∧ x.clock - start < CPS * 60 ∧
        x.result = k4a_wait_result_t.K4A_WAIT_RESULT_TIMEOUT :=
      fun x hx => h x (List.mem_cons_of_mem _ hx)
    simp only [List.cons_append, first_capture_loop, hw.1, hw.2.1, hw.2.2, Bool.not_false,
      decide_True, Bool.and_self, if_true, List.append_eq]
    rw [ih _ _ hws]
    simp [K4AInputThread.call, List.replicate_succ]

theorem loop_body_failed (B : Backend) (s : K4AInputThread) (t : Tick)
    (hexit : t.exit_ = false)
    (hto : t.result ≠ k4a_wait_result_t.K4A_WAIT_RESULT_TIMEOUT)
    (hok : t.result ≠ k4a_wait_result_t.K4A_WAIT_RESULT_SUCCEEDED) :
    loop_body B s t =
      Flow.break_ (s.call (Call.k4a_device_get_capture
        (1000 / k4a_convert_fps_to_uint s.config.camera_fps))) := by
  unfold loop_body
  cases hr : t.result with
  | K4A_WAIT_RESULT_SUCCEEDED => exact absurd hr hok
  | K4A_WAIT_RESULT_TIMEOUT => exact absurd hr hto
  | K4A_WAIT_RESULT_FAILED => simp [hexit]

theorem loop_body_missing (B : Backend) (s : K4AInputThread) (t : Tick)
    (hexit : t.exit_ = false)
    (hres : t.result = k4a_wait_result_t.K4A_WAIT_RESULT_SUCCEEDED)
    (hmiss : t.capture.depth_image = none ∨ t.capture.color_image = none) :
    loop_body B s t =
      Flow.continue_
        { s with
          trace := s.trace ++
            [Call.k4a_device_get_capture (1000 / k4a_convert_fps_to_uint s.config.camera_fps)] ++
            image_release_calls t.capture.color_image ++
            image_release_calls t.capture.depth_image ++
            [Call.k4a_capture_release t.capture.handle] } := by
  unfold loop_body
  cases hc : t.capture.color_image with
  | none =>
    cases hd : t.capture.depth_image <;>
      simp [hexit, hres, K4AInputThread.call, image_release_calls]
  | some rgb =>
    cases hd : t.capture.depth_image with
    | none => simp [hexit, hres, K4AInputThread.call, image_release_calls]
    | some dep => simp [hc, hd] at hmiss

theorem loop_body_decode_failed (B : Backend) (s : K4AInputThread) (t : Tick)
    (rgb dep : k4a_image)
    (hexit : t.exit_ = false)
    (hres : t.result = k4a_wait_result_t.K4A_WAIT_RESULT_SUCCEEDED)
    (hcolor : t.capture.color_image = some rgb) (hdepth : t.capture.depth_image = some dep)
    (hfmt : s.config.color_format = k4a_image_format_t.K4A_IMAGE_FORMAT_COLOR_MJPG)
    (hdecode : B.imdecode rgb.buffer = none) :
    loop_body B s t =
      Flow.break_ (s.call (Call.k4a_device_get_capture
        (1000 / k4a_convert_fps_to_uint s.config.camera_fps))) := by
  unfold loop_body
  simp [hexit, hres, hcolor, hdepth, K4AInputThread.call, hfmt, decode_image_opencv, hdecode]

/-! ## Producer thread: claims -/

/-- C4 (amended): in the streaming loop with color format MJPG, a capture
that holds both images and whose color payload does not decode
(`decode_image_opencv` returns false) makes the loop `break`: nothing is
pushed for it, `ThreadMain` closes the device and ends, and no later capture
is requested or pushed, whatever the device would deliver next. -/
theorem decode_failure_stops_loop (B : Backend) (CPS start : Int) (s0 s : K4AInputThread)
    (pre : List Tick) (t : Tick) (ts : List Tick) (rgb dep : k4a_image)
    (hstream : ThreadMain B CPS start s0 pre = (s, Phase.Streaming))
    (hexit : t.exit_ = false)
    (hres : t.result = k4a_wait_result_t.K4A_WAIT_RESULT_SUCCEEDED)
    (hcolor : t.capture.color_image = some rgb) (hdepth : t.capture.depth_image = some dep)
    (hfmt : s.config.color_format = k4a_image_format_t.K4A_IMAGE_FORMAT_COLOR_MJPG)
    (hdecode : B.imdecode rgb.buffer = none) :
    ThreadMain B CPS start s0 (pre ++ t :: ts) =
      ({ s with
         trace := s.trace ++
           [Call.k4a_device_get_capture (1000 / k4a_convert_fps_to_uint s.config.camera_fps),
            Call.k4a_device_close] },
       Phase.Stopped) := by
  rw [ThreadMain_append B CPS start s0 s pre (t :: ts) hstream]
  simp [streaming_loop, loop_body_decode_failed B s t rgb dep hexit hres hcolor hdepth hfmt hdecode,
    after_loop, K4AInputThread.call]

theorem decode_failure_stops_loop_witness :
    ThreadMain sampleBackend 1000000 0 started [captureTick 10 (sampleCapture 10 7 9)] =
        (streaming, Phase.Streaming) ∧
      ThreadMain sampleBackend 1000000 0 started
          ([captureTick 10 (sampleCapture 10 7 9)] ++
            captureTick 20 (sampleCapture 20 7 0) :: [captureTick 30 (sampleCapture 30 8 5)]) =
        ({ streaming with
           trace := streaming.trace ++
             [Call.k4a_device_get_capture
                (1000 / k4a_convert_fps_to_uint streaming.config.camera_fps),
              Call.k4a_device_close] },
         Phase.Stopped) :=
  ⟨rfl, decode_failure_stops_loop sampleBackend 1000000 0 started streaming
    [captureTick 10 (sampleCapture 10 7 9)] (captureTick 20 (sampleCapture 20 7 0))
    [captureTick 30 (sampleCapture 30 8 5)]
    { handle := 22, width_pixels := 1280, height_pixels := 720, buffer := 0 }
    { handle := 21, width_pixels := 512, height_pixels := 512, buffer := 7 }
    rfl rfl rfl rfl rfl rfl rfl⟩

/-- C4 fails as stated: the thread is streaming; a capture whose JPEG payload
does not decode is followed by a valid capture. The loop does not stay in
Streaming: the thread is Stopped with the device closed and both queues empty,
although the same valid capture is pushed when the corrupt one is left out. -/
theorem decode_failure_is_fatal :
    (ThreadMain sampleBackend 1000000 0 started [captureTick 10 (sampleCapture 10 7 9)]).2 =
        Phase.Streaming ∧
      (ThreadMain sampleBackend 1000000 0 started
        [captureTick 10 (sampleCapture 10 7 9), captureTick 20 (sampleCapture 20 7 0),
         captureTick 30 (sampleCapture 30 8 5)]).2 = Phase.Stopped ∧
      (ThreadMain sampleBackend 1000000 0 started
        [captureTick 10 (sampleCapture 10 7 9), captureTick 20 (sampleCapture 20 7 0),
         captureTick 30 (sampleCapture 30 8 5)]).1.depth_image_queue = [] ∧
      (ThreadMain sampleBackend 1000000 0 started
        [captureTick 10 (sampleCapture 10 7 9), captureTick 20 (sampleCapture 20 7 0),
         captureTick 30 (sampleCapture 30 8 5)]).1.color_image_queue = [] ∧
      (ThreadMain sampleBackend 1000000 0 started
        [captureTick 10 (sampleCapture 10 7 9),
         captureTick 30 (sampleCapture 30 8 5)]).1.depth_image_queue =
        [{ width := 1280, height := 720, data := 40 }] := by
  refine ⟨by decide, by decide, by decide, by decide, by decide⟩

/-- C5: in the streaming loop, when `k4a_device_get_capture` answers neither
timeout nor success, the loop breaks: `ThreadMain` ends in Stopped after
closing the device once; apart from the two recorded calls the state, both
queues included, is unchanged, and the ticks that follow are never consumed,
so nothing is pushed later. -/
theorem hard_failure_stops_loop (B : Backend) (CPS start : Int) (s0 s : K4AInputThread)
    (pre : List Tick) (t : Tick) (ts : List Tick)
    (hstream : ThreadMain B CPS start s0 pre = (s, Phase.Streaming))
    (hexit : t.exit_ = false)
    (hto : t.result ≠ k4a_wait_result_t.K4A_WAIT_RESULT_TIMEOUT)
    (hok : t.result ≠ k4a_wait_result_t.K4A_WAIT_RESULT_SUCCEEDED) :
    ThreadMain B CPS start s0 (pre ++ t :: ts) =
      ({ s with
         trace := s.trace ++
           [Call.k4a_device_get_capture (1000 / k4a_convert_fps_to_uint s.config.camera_fps),
            Call.k4a_device_close] },
       Phase.Stopped) := by
  rw [ThreadMain_append B CPS start s0 s pre (t :: ts) hstream]
  simp [streaming_loop, loop_body_failed B s t hexit hto hok, after_loop, K4AInputThread.call]

theorem hard_failure_stops_loop_witness :
    ThreadMain sampleBackend 1000000 0 started [captureTick 10 (sampleCapture 10 7 9)] =
        (streaming, Phase.Streaming) ∧
      ThreadMain sampleBackend 1000000 0 started
          ([captureTick 10 (sampleCapture 10 7 9)] ++
            emptyTick 20 k4a_wait_result_t.K4A_WAIT_RESULT_FAILED ::
              [captureTick 30 (sampleCapture 30 8 5)]) =
        ({ streaming with
           trace := streaming.trace ++
             [Call.k4a_device_get_capture
                (1000 / k4a_convert_fps_to_uint streaming.config.camera_fps),
              Call.k4a_device_close] },
         Phase.Stopped) :=
  ⟨rfl, hard_failure_stops_loop sampleBackend 1000000 0 started streaming
    [captureTick 10 (sampleCapture 10 7 9)]
    (emptyTick 20 k4a_wait_result_t.K4A_WAIT_RESULT_FAILED)
    [captureTick 30 (sampleCapture 30 8 5)] rfl rfl (by decide) (by decide)⟩

/-- C6: in the streaming loop, a successful capture in which the depth image
or the color image is absent is dropped: the image that was obtained (if any)
and the capture are released, nothing else in the state changes (both queues
are as before), and the loop goes on with the next tick; with no further tick
the thread is still Streaming. -/
theorem missing_image_drops_frame (B : Backend) (CPS start : Int) (s0 s : K4AInputThread)
    (pre : List Tick) (t : Tick) (ts : List Tick)
    (hstream : ThreadMain B CPS start s0 pre = (s, Phase.Streaming))
    (hexit : t.exit_ = false)
    (hres : t.result = k4a_wait_result_t.K4A_WAIT_RESULT_SUCCEEDED)
    (hmiss : t.capture.depth_image = none ∨ t.capture.color_image = none) :
    ThreadMain B CPS start s0 (pre ++ t :: ts) =
        after_loop (streaming_loop B
          { s with
            trace := s.trace ++
              [Call.k4a_device_get_capture
                (1000 / k4a_convert_fps_to_uint s.config.camera_fps)] ++
              image_release_calls t.capture.color_image ++
              image_release_calls t.capture.depth_image ++
              [Call.k4a_capture_release t.capture.handle] } ts) ∧
      ThreadMain B CPS start s0 (pre ++ [t]) =
        ({ s with
            trace := s.trace ++
              [Call.k4a_device_get_capture
                (1000 / k4a_convert_fps_to_uint s.config.camera_fps)] ++
              image_release_calls t.capture.color_image ++
              image_release_calls t.capture.depth_image ++
              [Call.k4a_capture_release t.capture.handle] },
          Phase.Streaming) := by
  constructor
  · rw [ThreadMain_append B CPS start s0 s pre (t :: ts) hstream]
    simp only [streaming_loop, loop_body_missing B s t hexit hres hmiss]
  · rw [ThreadMain_append B CPS start s0 s pre [t] hstream]
    simp only [streaming_loop, loop_body_missing B s t hexit hres hmiss, after_loop]

theorem missing_image_drops_frame_witness :
    ThreadMain sampleBackend 1000000 0 started [captureTick 10 (sampleCapture 10 7 9)] =
        (streaming, Phase.Streaming) ∧
      ThreadMain sampleBackend 1000000 0 started
          ([captureTick 10 (sampleCapture 10 7 9)] ++
            [captureTick 20
              { handle := 20,
                depth_image :=
                  some { handle := 21, width_pixels := 512, height_pixels := 512, buffer := 7 },
                color_image := none }]) =
        ({ streaming with
            trace := streaming.trace ++
              [Call.k4a_device_get_capture 33, Call.k4a_image_release 21,
               Call.k4a_capture_release 20] },
          Phase.Streaming) :=
  ⟨rfl, (missing_image_drops_frame sampleBackend 1000000 0 started streaming
    [captureTick 10 (sampleCapture 10 7 9)]
    (captureTick 20
      { handle := 20,
        depth_image :=
          some { handle := 21, width_pixels := 512, height_pixels := 512, buffer := 7 },
        color_image := none })
    [] rfl rfl rfl (Or.inr rfl)).2⟩

/-- C3 on concrete input: two stale pairs are discarded by the first call,
which returns the first pair pushed after it; the next call pops the front. -/
theorem first_call_clears_later_calls_pop_witness :
    GetNextFrame
        (PushAll fresh [(⟨4, 3, 10⟩, ⟨4, 3, 11⟩), (⟨4, 3, 20⟩, ⟨4, 3, 21⟩)])
        (List.replicate 1 [] ++ [(⟨4, 3, 30⟩, ⟨4, 3, 31⟩), (⟨4, 3, 40⟩, ⟨4, 3, 41⟩)] :: []) =
      Pulled.returned
        { fresh with
          first := false
          depth_image_queue := [⟨4, 3, 40⟩]
          color_image_queue := [⟨4, 3, 41⟩]
          depth_frames := [⟨4, 3, 30⟩]
          color_frames := [⟨4, 3, 31⟩] } ∧
    GetNextFrame
        { fresh with
          first := false
          depth_image_queue := [⟨4, 3, 40⟩]
          color_image_queue := [⟨4, 3, 41⟩]
          depth_frames := [⟨4, 3, 30⟩]
          color_frames := [⟨4, 3, 31⟩] } [] =
      Pulled.returned
        { fresh with
          first := false
          depth_frames := [⟨4, 3, 30⟩, ⟨4, 3, 40⟩]
          color_frames := [⟨4, 3, 31⟩, ⟨4, 3, 41⟩] } :=
  have h := first_call_clears_later_calls_pop
    (PushAll fresh [(⟨4, 3, 10⟩, ⟨4, 3, 11⟩), (⟨4, 3, 20⟩, ⟨4, 3, 21⟩)])
    { fresh with
      first := false
      depth_image_queue := [⟨4, 3, 40⟩]
      color_image_queue := [⟨4, 3, 41⟩]
      depth_frames := [⟨4, 3, 30⟩]
      color_frames := [⟨4, 3, 31⟩] }
    1 (⟨4, 3, 30⟩, ⟨4, 3, 31⟩) [(⟨4, 3, 40⟩, ⟨4, 3, 41⟩)] [] []
    ⟨4, 3, 40⟩ [] ⟨4, 3, 41⟩ [] rfl rfl rfl rfl
  ⟨h.1, h.2.2⟩

/-- C10 (amended): the wait for the first capture ends on a successful
capture, on an exit request or when the 60 s ceiling has elapsed, and in each
case `ThreadMain` goes on into the streaming loop. In particular, when every
attempt timed out and the ceiling elapses without any successful capture, the
thread is in Streaming all the same and handles the ticks that follow there. -/
theorem first_capture_wait_always_enters_streaming (B : Backend) (CPS start : Int)
    (s : K4AInputThread) (waits : List Tick) (ok over : Tick) (rest : List Tick)
    (hwaits : ∀ w ∈ waits, w.exit_ = false ∧ w.clock - start < CPS * 60 ∧
      w.result = k4a_wait_result_t.K4A_WAIT_RESULT_TIMEOUT)
    (hok : ok.exit_ = false ∧ ok.clock - start < CPS * 60 ∧
      ok.result = k4a_wait_result_t.K4A_WAIT_RESULT_SUCCEEDED)
    (hover : over.exit_ = true ∨ ¬ (over.clock - start < CPS * 60)) :
    ThreadMain B CPS start s (waits ++ ok :: rest) =
        after_loop (streaming_loop B
          { s with
            trace := s.trace ++
              List.replicate waits.length (Call.k4a_device_get_capture 100) ++
              [Call.k4a_device_get_capture 100, Call.k4a_capture_release ok.capture.handle] }
          rest) ∧
      ThreadMain B CPS start s (waits ++ over :: rest) =
        after_loop (streaming_loop B
          { s with
            trace := s.trace ++
              List.replicate waits.length (Call.k4a_device_get_capture 100) }
          rest) ∧
      ThreadMain B CPS start s (waits ++ [over]) =
        ({ s with
            trace := s.trace ++
              List.replicate waits.length (Call.k4a_device_get_capture 100) },
          Phase.Streaming) := by
  have hcond : (!over.exit_ && decide (over.clock - start < CPS * 60)) = false := by
    rcases hover with h | h
    · simp [h]
    · simp [h]
  refine ⟨?_, ?_, ?_⟩
  · unfold ThreadMain
    rw [first_capture_loop_timeouts CPS start waits s (ok :: rest) hwaits]
    simp [first_capture_loop, hok.1, hok.2.1, hok.2.2, K4AInputThread.call]
  · unfold ThreadMain
    rw [first_capture_loop_timeouts CPS start waits s (over :: rest) hwaits]
    simp only [first_capture_loop, hcond, Bool.false_eq_true, if_false]
  · unfold ThreadMain
    rw [first_capture_loop_timeouts CPS start waits s [over] hwaits]
    simp only [first_capture_loop, hcond, Bool.false_eq_true, if_false, streaming_loop,
      after_loop]

theorem first_capture_wait_always_enters_streaming_witness :
    ThreadMain sampleBackend 1000000 0 started
        ([emptyTick 100000 k4a_wait_result_t.K4A_WAIT_RESULT_TIMEOUT] ++
          [emptyTick 60000000 k4a_wait_result_t.K4A_WAIT_RESULT_TIMEOUT]) =
      ({ started with
          trace := started.trace ++ List.replicate 1 (Call.k4a_device_get_capture 100) },
        Phase.Streaming) :=
  (first_capture_wait_always_enters_streaming sampleBackend 1000000 0 started
    [emptyTick 100000 k4a_wait_result_t.K4A_WAIT_RESULT_TIMEOUT]
    (captureTick 200000 (sampleCapture 10 7 9))
    (emptyTick 60000000 k4a_wait_result_t.K4A_WAIT_RESULT_TIMEOUT) []
    (by simp [emptyTick]) (by simp [captureTick]) (Or.inr (by simp [emptyTick]))).2.2

/-- C10 fails as stated: no capture succeeds during the wait (one attempt
times out, then the 60 s ceiling has elapsed); the thread nevertheless enters
the streaming loop, requests a streaming capture (timeout 33 ms) and pushes the
frame that capture delivers. -/
theorem streaming_entered_without_first_capture :
    (ThreadMain sampleBackend 1000000 0 started
        [emptyTick 100000 k4a_wait_result_t.K4A_WAIT_RESULT_TIMEOUT,
         emptyTick 60000000 k4a_wait_result_t.K4A_WAIT_RESULT_TIMEOUT,
         captureTick 60000030 (sampleCapture 30 8 5)]).2 = Phase.Streaming ∧
      (ThreadMain sampleBackend 1000000 0 started
        [emptyTick 100000 k4a_wait_result_t.K4A_WAIT_RESULT_TIMEOUT,
         emptyTick 60000000 k4a_wait_result_t.K4A_WAIT_RESULT_TIMEOUT,
         captureTick 60000030 (sampleCapture 30 8 5)]).1.depth_image_queue =
        [{ width := 1280, height := 720, data := 40 }] ∧
      (ThreadMain sampleBackend 1000000 0 started
        [emptyTick 100000 k4a_wait_result_t.K4A_WAIT_RESULT_TIMEOUT,
         emptyTick 60000000 k4a_wait_result_t.K4A_WAIT_RESULT_TIMEOUT,
         captureTick 60000030 (sampleCapture 30 8 5)]).1.trace =
        started.trace ++
          [Call.k4a_device_get_capture 100, Call.k4a_device_get_capture 33, Call.notify_all,
           Call.k4a_image_release 32, Call.k4a_image_release 31, Call.k4a_capture_release 30] := by
  refine ⟨by decide, by decide, by decide⟩

/-! ## Start sequence: lemmas -/

/-- What `Start` does when it gets past its three exits, for a downscale
factor of at least 1. -/
theorem Start_completes (K4A_CHECK : k4a_result_t → Bool) (B : Backend) (env : StartEnv)
    (s : K4AInputThread)
    (_hfactor : 0 < s.factor)
    (hcount : env.device_count ≠ 0)
    (hopen : env.device_open = k4a_result_t.K4A_RESULT_SUCCEEDED)
    (hcheck : K4A_CHECK env.device_set_color_control = true) :
    Start K4A_CHECK B env s =
      { init_undistortion_map B (init_memory env.image_create (before_init_memory env s)) with
        color_camera := some (installed_camera
          (init_undistortion_map B (init_memory env.image_create (before_init_memory env s))))
        depth_camera := some (installed_camera
          (init_undistortion_map B (init_memory env.image_create (before_init_memory env s))))
        exit_ := false
        thread_ := true } := by
  unfold Start
  rw [if_neg hcount]
  simp only [hopen, ne_eq, not_true_eq_false, if_false, hcheck, Bool.true_eq_false]
  rfl

theorem init_shape (B : Backend) (created : Option k4a_image) (s : K4AInputThread) :
    (init_undistortion_map B (init_memory created s)).width =
        s.calibration.color_camera_calibration.resolution_width ∧
      (init_undistortion_map B (init_memory created s)).height =
        s.calibration.color_camera_calibration.resolution_height ∧
      (init_undistortion_map B (init_memory created s)).factor = s.factor ∧
      (init_undistortion_map B (init_memory created s)).cv_depth_downscaled.rows =
        s.calibration.color_camera_calibration.resolution_height / s.factor ∧
      (init_undistortion_map B (init_memory created s)).cv_depth_downscaled.cols =
        s.calibration.color_camera_calibration.resolution_width / s.factor ∧
      (init_undistortion_map B (init_memory created s)).cv_color_downscaled.rows =
        s.calibration.color_camera_calibration.resolution_height / s.factor ∧
      (init_undistortion_map B (init_memory created s)).cv_color_downscaled.cols =
        s.calibration.color_camera_calibration.resolution_width / s.factor ∧
      (init_undistortion_map B (init_memory created s)).map1.rows =
        s.calibration.color_camera_calibration.resolution_height / s.factor ∧
      (init_undistortion_map B (init_memory created s)).map1.cols =
        s.calibration.color_camera_calibration.resolution_width / s.factor := by
  cases created <;> simp [init_undistortion_map, init_memory, Mat.zeros]

/-- The shape of what `undistort_depth_and_rgb` produces: with scratch matrices
and a remap table of `R` rows and `C` columns (both non-zero) and non-empty
inputs, the call returns and both outputs have `R` rows and `C` columns. -/
theorem undistort_shape (B : Backend) (u : K4AInputThread) (cv_color cv_depth : Mat)
    (R C : Nat) (hR : 0 < R) (hC : 0 < C)
    (hdr : u.cv_depth_downscaled.rows = R) (hdc : u.cv_depth_downscaled.cols = C)
    (hcr : u.cv_color_downscaled.rows = R) (hcc : u.cv_color_downscaled.cols = C)
    (hmr : u.map1.rows = R) (hmc : u.map1.cols = C)
    (hcolor : cv_color.empty = false) (hdepth : cv_depth.empty = false) :
    ∃ (s1 : K4AInputThread) (undistorted_color undistorted_depth : Mat),
      undistort_depth_and_rgb B u cv_color cv_depth =
          some (s1, undistorted_color, undistorted_depth) ∧
        undistorted_depth.rows = R ∧ undistorted_depth.cols = C ∧
        undistorted_color.rows = R ∧ undistorted_color.cols = C := by
  have hR0 : (R == 0) = false := by simpa using Nat.pos_iff_ne_zero.mp hR
  have hC0 : (C == 0) = false := by simpa using Nat.pos_iff_ne_zero.mp hC
  have hm : u.map1.empty = false := by simp [Mat.empty, hmr, hmc, hR0, hC0]
  simp only [undistort_depth_and_rgb, cv_resize, cv_remap, hdr, hdc, hcr, hcc, hm, hcolor,
    hdepth, hR0, hC0, Bool.or_self, Bool.false_eq_true, if_false]
  exact ⟨_, _, _, rfl, hmr, hmc, hmr, hmc⟩

theorem Start_no_device (K4A_CHECK : k4a_result_t → Bool) (B : Backend) (env : StartEnv)
    (s : K4AInputThread) (hcount : env.device_count = 0) :
    Start K4A_CHECK B env s = s := by
  simp [Start, hcount]

theorem Start_open_failed (K4A_CHECK : k4a_result_t → Bool) (B : Backend) (env : StartEnv)
    (s : K4AInputThread) (hcount : env.device_count ≠ 0)
    (hopen : env.device_open ≠ k4a_result_t.K4A_RESULT_SUCCEEDED) :
    Start K4A_CHECK B env s = s.call Call.k4a_device_open := by
  simp [Start, hcount, hopen]

/-! ## Start sequence: claims -/

/-- C7 (code defect): with a downscale factor of at least 1, when a device is
found and opens, a failure of `k4a_device_start_cameras` or of
`k4a_device_get_calibration` does not make `Start` return: provided the
color-control check lets execution go on, `Start` runs to its end, installs
both camera models and starts the producer thread. -/
theorem Start_ignores_camera_and_calibration_failure (K4A_CHECK : k4a_result_t → Bool)
    (B : Backend) (env : StartEnv) (s : K4AInputThread)
    (hfactor : 0 < s.factor)
    (hcount : env.device_count ≠ 0)
    (hopen : env.device_open = k4a_result_t.K4A_RESULT_SUCCEEDED)
    (hcheck : K4A_CHECK env.device_set_color_control = true)
    (_hfail : env.device_start_cameras = k4a_result_t.K4A_RESULT_FAILED ∨
      env.device_get_calibration = k4a_result_t.K4A_RESULT_FAILED) :
    (Start K4A_CHECK B env s).thread_ = true ∧
      (Start K4A_CHECK B env s).color_camera ≠ none ∧
      (Start K4A_CHECK B env s).trace =
        s.trace ++ [Call.k4a_device_open, Call.k4a_device_start_cameras,
          Call.k4a_device_get_calibration, Call.k4a_device_set_color_control] := by
  rw [Start_completes K4A_CHECK B env s hfactor hcount hopen hcheck]
  refine ⟨rfl, by simp, ?_⟩
  cases hi : env.image_create <;>
    simp [init_undistortion_map, init_memory, before_init_memory, K4AInputThread.call]

theorem Start_ignores_camera_and_calibration_failure_witness :
    0 < fresh.factor ∧
    (Start (fun r => decide (r = k4a_result_t.K4A_RESULT_SUCCEEDED)) sampleBackend
        { sampleEnv with
          device_start_cameras := k4a_result_t.K4A_RESULT_FAILED
          device_get_calibration := k4a_result_t.K4A_RESULT_FAILED } fresh).thread_ = true :=
  ⟨by decide, (Start_ignores_camera_and_calibration_failure
    (fun r => decide (r = k4a_result_t.K4A_RESULT_SUCCEEDED)) sampleBackend
    { sampleEnv with
      device_start_cameras := k4a_result_t.K4A_RESULT_FAILED
      device_get_calibration := k4a_result_t.K4A_RESULT_FAILED } fresh
    (by decide) (by decide) rfl rfl (Or.inl rfl)).1⟩

/-- C8 (amended): `init_undistortion_map` tests nothing and has no failure
result, so a calibration whose color focal length `fx` or `fy` is zero is not
rejected: with a downscale factor of at least 1, whenever a device is found,
opens, and the color-control check lets execution go on, `Start` installs the
camera model on the color and on the depth camera and starts the producer
thread. -/
theorem degenerate_intrinsics_not_rejected (K4A_CHECK : k4a_result_t → Bool)
    (B : Backend) (env : StartEnv) (s : K4AInputThread)
    (hfactor : 0 < s.factor)
    (hcount : env.device_count ≠ 0)
    (hopen : env.device_open = k4a_result_t.K4A_RESULT_SUCCEEDED)
    (hcheck : K4A_CHECK env.device_set_color_control = true)
    (_hdeg : env.calibration.color_camera_calibration.intrinsics.fx = 0 ∨
      env.calibration.color_camera_calibration.intrinsics.fy = 0) :
    (Start K4A_CHECK B env s).thread_ = true ∧
      (Start K4A_CHECK B env s).color_camera =
        some (installed_camera
          (init_undistortion_map B (init_memory env.image_create (before_init_memory env s)))) ∧
      (Start K4A_CHECK B env s).depth_camera =
        some (installed_camera
          (init_undistortion_map B (init_memory env.image_create (before_init_memory env s)))) := by
  rw [Start_completes K4A_CHECK B env s hfactor hcount hopen hcheck]
  exact ⟨rfl, rfl, rfl⟩

theorem degenerate_intrinsics_not_rejected_witness :
    0 < fresh.factor ∧
    (Start (fun r => decide (r = k4a_result_t.K4A_RESULT_SUCCEEDED)) sampleBackend
        { sampleEnv with calibration := sampleCalibration 600 0 } fresh).thread_ = true :=
  ⟨by decide, (degenerate_intrinsics_not_rejected
    (fun r => decide (r = k4a_result_t.K4A_RESULT_SUCCEEDED)) sampleBackend
    { sampleEnv with calibration := sampleCalibration 600 0 } fresh
    (by decide) (by decide) rfl rfl (Or.inr rfl)).1⟩

/-- C8 fails as stated: with a calibration whose `fx` is zero, `Start` does
not abort; it installs a camera model on the color and the depth camera and
starts the producer thread. -/
theorem Start_accepts_zero_focal_length :
    (sampleCalibration 0 600).color_camera_calibration.intrinsics.fx = 0 ∧
      (Start (fun _ => true) sampleBackend
        { sampleEnv with calibration := sampleCalibration 0 600 } fresh).thread_ = true ∧
      (Start (fun _ => true) sampleBackend
        { sampleEnv with calibration := sampleCalibration 0 600 } fresh).color_camera.isSome
          = true ∧
      (Start (fun _ => true) sampleBackend
        { sampleEnv with calibration := sampleCalibration 0 600 } fresh).depth_camera.isSome
          = true := by
  refine ⟨rfl, by decide, by decide, by decide⟩

/-- C9: for a color resolution `width` x `height` and a factor with
`width / factor` and `height / factor` both positive, after `Start` has run
`init_memory` and `init_undistortion_map`, `undistort_depth_and_rgb` on
non-empty inputs returns an undistorted depth and an undistorted color image
that both have `height / factor` rows and `width / factor` columns, which is
the resolution `(width / factor, height / factor)` of the camera model that
`Start` installs on the color and on the depth camera. -/
theorem undistort_output_dimensions (K4A_CHECK : k4a_result_t → Bool)
    (B : Backend) (env : StartEnv) (s : K4AInputThread) (cv_color cv_depth : Mat)
    (hcount : env.device_count ≠ 0)
    (hopen : env.device_open = k4a_result_t.K4A_RESULT_SUCCEEDED)
    (hcheck : K4A_CHECK env.device_set_color_control = true)
    (hw : 0 < env.calibration.color_camera_calibration.resolution_width / s.factor)
    (hh : 0 < env.calibration.color_camera_calibration.resolution_height / s.factor)
    (hcolor : cv_color.empty = false) (hdepth : cv_depth.empty = false) :
    ∃ (s1 : K4AInputThread) (undistorted_color undistorted_depth : Mat)
        (parameters : List Rat),
      undistort_depth_and_rgb B (Start K4A_CHECK B env s) cv_color cv_depth =
          some (s1, undistorted_color, undistorted_depth) ∧
        undistorted_depth.rows =
          env.calibration.color_camera_calibration.resolution_height / s.factor ∧
        undistorted_depth.cols =
          env.calibration.color_camera_calibration.resolution_width / s.factor ∧
        undistorted_color.rows =
          env.calibration.color_camera_calibration.resolution_height / s.factor ∧
        undistorted_color.cols =
          env.calibration.color_camera_calibration.resolution_width / s.factor ∧
        (Start K4A_CHECK B env s).color_camera =
          some { width := env.calibration.color_camera_calibration.resolution_width / s.factor,
                 height := env.calibration.color_camera_calibration.resolution_height / s.factor,
                 parameters := parameters } ∧
        (Start K4A_CHECK B env s).depth_camera =
          some { width := env.calibration.color_camera_calibration.resolution_width / s.factor,
                 height := env.calibration.color_camera_calibration.resolution_height / s.factor,
                 parameters := parameters } := by
  obtain ⟨iw, ih, ifac, hdr, hdc, hcr, hcc, hmr, hmc⟩ :=
    init_shape B env.image_create (before_init_memory env s)
  have hcal : (before_init_memory env s).calibration = env.calibration := rfl
  have hfac : (before_init_memory env s).factor = s.factor := rfl
  rw [hfac] at ifac
  rw [hcal, hfac] at hdr hdc hcr hcc hmr hmc
  have hfactor : 0 < s.factor := by
    rcases Nat.eq_zero_or_pos s.factor with h0 | hpos
    · rw [h0, Nat.div_zero] at hw
      exact absurd hw (Nat.lt_irrefl 0)
    · exact hpos
  rw [Start_completes K4A_CHECK B env s hfactor hcount hopen hcheck]
  obtain ⟨s1, uc, ud, hu, h1, h2, h3, h4⟩ :=
    undistort_shape B
      { init_undistortion_map B (init_memory env.image_create (before_init_memory env s)) with
        color_camera := some (installed_camera
          (init_undistortion_map B (init_memory env.image_create (before_init_memory env s))))
        depth_camera := some (installed_camera
          (init_undistortion_map B (init_memory env.image_create (before_init_memory env s))))
        exit_ := false
        thread_ := true }
      cv_color cv_depth _ _ hh hw hdr hdc hcr hcc hmr hmc hcolor hdepth
  refine ⟨s1, uc, ud,
    (installed_camera (init_undistortion_map B
      (init_memory env.image_create (before_init_memory env s)))).parameters,
    hu, h1, h2, h3, h4, ?_, ?_⟩
  · simp only [installed_camera, iw, ih, ifac, hcal]
  · simp only [installed_camera, iw, ih, ifac, hcal]

theorem undistort_output_dimensions_witness :
    ∃ (s1 : K4AInputThread) (undistorted_color undistorted_depth : Mat)
        (parameters : List Rat),
      undistort_depth_and_rgb sampleBackend
          (Start (fun _ => true) sampleBackend sampleEnv { fresh with factor := 2 })
          { rows := 720, cols := 1280, type := MatType.CV_8UC3, data := 5 }
          { rows := 720, cols := 1280, type := MatType.CV_16U, data := 8 } =
          some (s1, undistorted_color, undistorted_depth) ∧
        undistorted_depth.rows = 360 ∧ undistorted_depth.cols = 640 ∧
        undistorted_color.rows = 360 ∧ undistorted_color.cols = 640 ∧
        (Start (fun _ => true) sampleBackend sampleEnv { fresh with factor := 2 }).color_camera =
          some { width := 640, height := 360, parameters := parameters } ∧
        (Start (fun _ => true) sampleBackend sampleEnv { fresh with factor := 2 }).depth_camera =
          some { width := 640, height := 360, parameters := parameters } :=
  undistort_output_dimensions (fun _ => true) sampleBackend sampleEnv { fresh with factor := 2 }
    { rows := 720, cols := 1280, type := MatType.CV_8UC3, data := 5 }
    { rows := 720, cols := 1280, type := MatType.CV_16U, data := 8 }
    (by decide) rfl rfl (by decide) (by decide) rfl rfl

/-! ## Closing the device: lemmas -/

theorem close_count_call (s : K4AInputThread) (c : Call) :
    close_count (s.call c) =
      close_count s + (if c = Call.k4a_device_close then 1 else 0) := by
  by_cases h : c = Call.k4a_device_close
  · subst h
    simp [close_count, K4AInputThread.call]
  · have hb : (c == Call.k4a_device_close) = false := by simpa using h
    simp [close_count, K4AInputThread.call, List.count_append, List.count_cons, hb, h]

theorem decode_image_opencv_trace (B : Backend) (s : K4AInputThread) (color_image : k4a_image) :
    (decode_image_opencv B s color_image).1.trace = s.trace := by
  unfold decode_image_opencv
  split
  · rfl
  · split <;> rfl

/-- The only `break` inside the frame processing is the one taken when the
reprojection fails, and it leaves the state as it was. -/
theorem finish_frame_break (B : Backend) (u x : K4AInputThread) (capture : k4a_capture)
    (rgb dep : k4a_image) (m : Mat)
    (h : finish_frame B u capture rgb dep m = Flow.break_ x) :
    x = u ∧ transform_depth_to_color B u dep = none := by
  unfold finish_frame at h
  cases ht : transform_depth_to_color B u dep with
  | none =>
    simp only [ht, Flow.break_.injEq] at h
    exact ⟨h.symm, rfl⟩
  | some s1 =>
    simp only [ht] at h
    cases hu : undistort_depth_and_rgb B s1 m
        { rows := k4a_image_get_height_pixels s1.transformed_depth_image
          cols := k4a_image_get_width_pixels s1.transformed_depth_image
          type := MatType.CV_16U
          data := k4a_image_get_buffer s1.transformed_depth_image } with
    | none => simp [hu] at h
    | some r =>
      obtain ⟨s2, uc, ud⟩ := r
      simp [hu] at h

/-- A round that ends by `break` without an exit request (hard device error,
decode failure, reprojection failure) has called `k4a_device_get_capture` and
nothing else on the device. -/
theorem loop_body_break_trace (B : Backend) (s x : K4AInputThread) (t : Tick)
    (hexit : t.exit_ = false) (h : loop_body B s t = Flow.break_ x) :
    x.trace = s.trace ++
      [Call.k4a_device_get_capture (1000 / k4a_convert_fps_to_uint s.config.camera_fps)] := by
  unfold loop_body at h
  simp only [hexit, Bool.false_eq_true, if_false] at h
  cases hr : t.result with
  | K4A_WAIT_RESULT_TIMEOUT => simp [hr] at h
  | K4A_WAIT_RESULT_FAILED =>
    simp only [hr, Flow.break_.injEq] at h
    rw [← h]
    rfl
  | K4A_WAIT_RESULT_SUCCEEDED =>
    simp only [hr] at h
    cases hc : t.capture.color_image with
    | none => cases hd : t.capture.depth_image <;> simp [hc, hd] at h
    | some rgb =>
      cases hd : t.capture.depth_image with
      | none => simp [hc, hd] at h
      | some dep =>
        simp only [hc, hd] at h
        cases hf : (s.call (Call.k4a_device_get_capture
            (1000 / k4a_convert_fps_to_uint s.config.camera_fps))).config.color_format with
        | K4A_IMAGE_FORMAT_COLOR_MJPG =>
          simp only [hf] at h
          have htr := decode_image_opencv_trace B (s.call (Call.k4a_device_get_capture
            (1000 / k4a_convert_fps_to_uint s.config.camera_fps))) rgb
          cases hdec : decode_image_opencv B (s.call (Call.k4a_device_get_capture
            (1000 / k4a_convert_fps_to_uint s.config.camera_fps))) rgb with
          | mk s2 r =>
            rw [hdec] at htr h
            cases r with
            | none =>
              simp only [Flow.break_.injEq] at h
              rw [← h]
              rfl
            | some m =>
              simp only at h
              rw [(finish_frame_break B _ _ _ _ _ _ h).1]
              exact htr
        | K4A_IMAGE_FORMAT_COLOR_BGRA32 =>
          simp only [hf] at h
          rw [(finish_frame_break B _ _ _ _ _ _ h).1]
          rfl
        | K4A_IMAGE_FORMAT_COLOR_YUY2 =>
          simp only [hf] at h
          rw [(finish_frame_break B _ _ _ _ _ _ h).1]
          rfl
        | K4A_IMAGE_FORMAT_COLOR_NV12 =>
          simp only [hf] at h
          rw [(finish_frame_break B _ _ _ _ _ _ h).1]
          rfl

theorem loop_body_exit (B : Backend) (s : K4AInputThread) (t : Tick) (hexit : t.exit_ = true) :
    loop_body B s t = Flow.break_ (s.call Call.k4a_device_close) := by
  unfold loop_body
  simp [hexit]

/-- How often `ThreadMain` closes the device when a round of its streaming
loop ends by `break`: twice when the round saw the exit request, once on every
other `break`. -/
theorem stop_close_count (B : Backend) (CPS start : Int) (s0 s x : K4AInputThread)
    (pre : List Tick) (t : Tick) (ts : List Tick)
    (hstream : ThreadMain B CPS start s0 pre = (s, Phase.Streaming))
    (hb : loop_body B s t = Flow.break_ x) :
    ThreadMain B CPS start s0 (pre ++ t :: ts) = (x.call Call.k4a_device_close, Phase.Stopped) ∧
      close_count (x.call Call.k4a_device_close) =
        close_count s + (if t.exit_ = true then 2 else 1) := by
  constructor
  · rw [ThreadMain_append B CPS start s0 s pre (t :: ts) hstream]
    simp only [streaming_loop, hb, after_loop]
  · cases hexit : t.exit_ with
    | true =>
      rw [loop_body_exit B s t hexit] at hb
      simp only [Flow.break_.injEq] at hb
      rw [← hb, close_count_call, close_count_call]
      simp
    | false =>
      have htr := loop_body_break_trace B s x t hexit hb
      rw [close_count_call]
      simp [close_count, htr, List.count_append, List.count_cons]

/-! ## Closing the device: claim -/

/-- C11 (code defect): when `ThreadMain`, in its streaming loop, reads `exit_`
as true at the top of a round, it calls `k4a_device_close` inside the loop,
breaks, and calls `k4a_device_close` again after the loop: the device handle
is closed twice within that one run, not once. -/
theorem exit_request_closes_device_twice (B : Backend) (CPS start : Int)
    (s0 s : K4AInputThread) (pre : List Tick) (t : Tick) (ts : List Tick)
    (hstream : ThreadMain B CPS start s0 pre = (s, Phase.Streaming))
    (hexit : t.exit_ = true) :
    ThreadMain B CPS start s0 (pre ++ t :: ts) =
        ({ s with trace := s.trace ++ [Call.k4a_device_close, Call.k4a_device_close] },
          Phase.Stopped) ∧
      close_count (ThreadMain B CPS start s0 (pre ++ t :: ts)).1 = close_count s + 2 := by
  have h := stop_close_count B CPS start s0 s _ pre t ts hstream (loop_body_exit B s t hexit)
  refine ⟨?_, ?_⟩
  · rw [h.1]
    simp [K4AInputThread.call]
  · rw [h.1, h.2]
    simp [hexit]

theorem exit_request_closes_device_twice_witness :
    ThreadMain sampleBackend 1000000 0 started [captureTick 10 (sampleCapture 10 7 9)] =
        (streaming, Phase.Streaming) ∧
      close_count streaming = 0 ∧
      (ThreadMain sampleBackend 1000000 0 started
        ([captureTick 10 (sampleCapture 10 7 9)] ++ exitTick 20 :: [])).2 = Phase.Stopped ∧
      close_count (ThreadMain sampleBackend 1000000 0 started
        ([captureTick 10 (sampleCapture 10 7 9)] ++ exitTick 20 :: [])).1 = 2 :=
  have h := exit_request_closes_device_twice sampleBackend 1000000 0 started streaming
    [captureTick 10 (sampleCapture 10 7 9)] (exitTick 20) [] rfl rfl
  ⟨rfl, by decide, by rw [h.1], h.2⟩

end K4A
